import Mathlib

/-!
# Virtual trackball controller (`_COMMON/src/TrackBall.cpp`, `_COMMON/inc/TrackBall.h`)

A shallow embedding of the `TrackBall` class.

* The class keeps all of its data in static members and in function-local statics.  They are
  gathered in the record `State`; every member function becomes a function on that record.
* `float`/`double` arithmetic is read over the real numbers `ℝ` (no rounding, no NaN, no
  infinities).  `cos`, `sin`, `acos`, `sqrt` are `Real.cos`, `Real.sin`, `Real.arccos`,
  `Real.sqrt`; `glm::pi<float>()` is `Real.pi`.  Statements about `matToAxisAmount` and
  `rotateTrackball` therefore describe the computation without rounding.  The program rounds
  every operation to binary32, and a rounded product of two rotation matrices can have a trace
  above 3, where `acos` returns NaN; `matToAxisAmountChecked` makes that case explicit.
* C++ `int` is read as `ℤ`.  Signed overflow is undefined behaviour in C++, so the embedding
  describes the executions in which no `int` operation overflows.
* What the class reads from its environment (`glutGetModifiers()`, the viewport width returned by
  `glGetIntegerv(GL_VIEWPORT, ..)`, `std::clock()`) is passed in as an `Env` record.
* Calls of the registered application callbacks and of `glutPostRedisplay()` are recorded in the
  state (`calls`, `redisplays`); callbacks are identified by a number (their address) and are
  assumed not to call back into the `TrackBall` class.
* The GLM functions used (`glm::translate`, `glm::rotate`, `glm::scale`, `glm::make_mat3`,
  `glm::value_ptr`, `mat3 * mat3`) and the GLUT constants of `FL/glut.H` are outside the
  repository; they are written down here following those libraries.
-/

namespace TrackBall

/-! ## Constants of `FL/glut.H` -/

/-- Button state `GLUT_DOWN`. -/
def GLUT_DOWN : Int := 0

/-- Button state `GLUT_UP`. -/
def GLUT_UP : Int := 1

/-- Button code `GLUT_LEFT_BUTTON`. -/
def GLUT_LEFT_BUTTON : Int := 0

/-- Button code `GLUT_MIDDLE_BUTTON`. -/
def GLUT_MIDDLE_BUTTON : Int := 1

/-- Button code `GLUT_RIGHT_BUTTON`. -/
def GLUT_RIGHT_BUTTON : Int := 2

/-- Modifier mask `GLUT_ACTIVE_SHIFT` (`FL_SHIFT`). -/
def GLUT_ACTIVE_SHIFT : Int := 0x10000

/-- Modifier mask `GLUT_ACTIVE_CTRL` (`FL_CTRL`). -/
def GLUT_ACTIVE_CTRL : Int := 0x40000

/-- Modifier mask `GLUT_ACTIVE_ALT` (`FL_ALT`). -/
def GLUT_ACTIVE_ALT : Int := 0x80000

/-- Special key `GLUT_KEY_HOME` (`FL_Home`). -/
def GLUT_KEY_HOME : Int := 0xff50

/-- Special key `GLUT_KEY_LEFT` (`FL_Left`). -/
def GLUT_KEY_LEFT : Int := 0xff51

/-- Special key `GLUT_KEY_UP` (`FL_Up`). -/
def GLUT_KEY_UP : Int := 0xff52

/-- Special key `GLUT_KEY_RIGHT` (`FL_Right`). -/
def GLUT_KEY_RIGHT : Int := 0xff53

/-- Special key `GLUT_KEY_DOWN` (`FL_Down`). -/
def GLUT_KEY_DOWN : Int := 0xff54

/-! ## Data model -/

/-- The enumeration `TrackBall::TrackballModeT`. -/
inductive TrackballModeT where
  | TM_ROTATE
  | TM_TRANSLATEXY
  | TM_TRANSLATEZ
  | TM_SCALE
  | TM_INVALID
  deriving DecidableEq, Repr

open TrackballModeT

/-- A `float[3]` array (also used for `glm::vec3`). -/
@[ext]
structure Float3 where
  e0 : ℝ
  e1 : ℝ
  e2 : ℝ

/-- A `float[4]` array (also used for `glm::vec4`); for a rotation `e0 e1 e2` is the axis and
`e3` the angle. -/
@[ext]
structure Float4 where
  e0 : ℝ
  e1 : ℝ
  e2 : ℝ
  e3 : ℝ

/-- A `float[9]` array. -/
@[ext]
structure Float9 where
  m0 : ℝ
  m1 : ℝ
  m2 : ℝ
  m3 : ℝ
  m4 : ℝ
  m5 : ℝ
  m6 : ℝ
  m7 : ℝ
  m8 : ℝ

/-- A `glm::mat3`: three columns `c0 c1 c2` (GLM stores matrices column by column, `m[i]` is
column `i`). -/
@[ext]
structure Mat3 where
  c0 : Float3
  c1 : Float3
  c2 : Float3

/-- A `glm::mat4`: four columns. -/
@[ext]
structure Mat4 where
  c0 : Float4
  c1 : Float4
  c2 : Float4
  c3 : Float4

/-- One invocation of a registered application callback: the callback (its address) and the
arguments it was called with. -/
inductive Call where
  | doubleClick (f : Nat) (x y : Int)
  | mouseButton (f : Nat) (x1 y1 x2 y2 : Int)
  | mouseMotion (f : Nat) (x1 y1 x2 y2 : Int)
  deriving DecidableEq, Repr

/-- The function-local statics of `evaluateTrackballMode`: `mode` and `key_modifier_prev`. -/
structure EvalStatics where
  mode : TrackballModeT
  key_modifier_prev : Int
  deriving DecidableEq, Repr

/-- What a handler reads from outside the class during one call. -/
structure Env where
  /-- The value returned by `glutGetModifiers()`. -/
  modifiers : Int
  /-- The entry `viewport[2]` filled in by `glGetIntegerv(GL_VIEWPORT, viewport)`. -/
  viewportWidth : Int
  /-- The value returned by `std::clock()`. -/
  clock : Int

/-- All static data of the class, the function-local statics of its member functions, and the
record of the calls made to the outside. -/
structure State where
  _AppDoubleClickFunctionCB : Option Nat
  _AppMouseButtonFunctionCB : Option Nat
  _AppMouseMotionFunctionCB : Option Nat
  _Translation : Float3
  _Offset : Float3
  _Rotation : Float4
  _Scale : Float3
  _TrackBallMatrix : Mat4
  _OldMouseX : Int
  _OldMouseY : Int
  _MouseButtonPressed : Bool
  /-- Statics of `evaluateTrackballMode`. -/
  eval : EvalStatics
  /-- Static `dblclick_start` of `glutMouseButtonCB`. -/
  dblclick_start : Int
  /-- Static `dblclick_finish` of `glutMouseButtonCB`. -/
  dblclick_finish : Int
  /-- Callback invocations so far, oldest first. -/
  calls : List Call
  /-- Number of `glutPostRedisplay()` calls so far. -/
  redisplays : Nat

/-! ## GLM -/

/-- The matrix `glm::mat4(1.0)`. -/
def mat4Identity : Mat4 :=
  { c0 := ⟨1, 0, 0, 0⟩, c1 := ⟨0, 1, 0, 0⟩, c2 := ⟨0, 0, 1, 0⟩, c3 := ⟨0, 0, 0, 1⟩ }

/-- Scalar multiple `v * k` of a `glm::vec4`. -/
def Float4.smul (v : Float4) (k : ℝ) : Float4 :=
  ⟨v.e0 * k, v.e1 * k, v.e2 * k, v.e3 * k⟩

/-- Sum of two `glm::vec4`. -/
def Float4.add (v w : Float4) : Float4 :=
  ⟨v.e0 + w.e0, v.e1 + w.e1, v.e2 + w.e2, v.e3 + w.e3⟩

/-- The function `glm::translate(m, v)`: `Result = m; Result[3] = m[0]*v[0] + m[1]*v[1] +
m[2]*v[2] + m[3]`. -/
def glmTranslate (m : Mat4) (v : Float3) : Mat4 :=
  { m with c3 := (((m.c0.smul v.e0).add (m.c1.smul v.e1)).add (m.c2.smul v.e2)).add m.c3 }

/-- The function `glm::normalize(v)` for a `vec3`: `v * inversesqrt(dot(v, v))`. -/
noncomputable def glmNormalize (v : Float3) : Float3 :=
  let k : ℝ := 1 / Real.sqrt (v.e0 * v.e0 + v.e1 * v.e1 + v.e2 * v.e2)
  ⟨v.e0 * k, v.e1 * k, v.e2 * k⟩

/-- The function `glm::rotate(m, angle, v)` (angle in radians): the rotation matrix `Rotate` about
the normalised axis is built entry by entry and `m` is multiplied by it from the right. -/
noncomputable def glmRotate (m : Mat4) (angle : ℝ) (v : Float3) : Mat4 :=
  let c := Real.cos angle
  let s := Real.sin angle
  let axis := glmNormalize v
  let temp : Float3 := ⟨(1 - c) * axis.e0, (1 - c) * axis.e1, (1 - c) * axis.e2⟩
  let r00 := c + temp.e0 * axis.e0
  let r01 := temp.e0 * axis.e1 + s * axis.e2
  let r02 := temp.e0 * axis.e2 - s * axis.e1
  let r10 := temp.e1 * axis.e0 - s * axis.e2
  let r11 := c + temp.e1 * axis.e1
  let r12 := temp.e1 * axis.e2 + s * axis.e0
  let r20 := temp.e2 * axis.e0 + s * axis.e1
  let r21 := temp.e2 * axis.e1 - s * axis.e0
  let r22 := c + temp.e2 * axis.e2
  { c0 := ((m.c0.smul r00).add (m.c1.smul r01)).add (m.c2.smul r02)
    c1 := ((m.c0.smul r10).add (m.c1.smul r11)).add (m.c2.smul r12)
    c2 := ((m.c0.smul r20).add (m.c1.smul r21)).add (m.c2.smul r22)
    c3 := m.c3 }

/-- The function `glm::scale(m, v)`: the first three columns are scaled by `v[0]`, `v[1]`,
`v[2]`. -/
def glmScale (m : Mat4) (v : Float3) : Mat4 :=
  { c0 := m.c0.smul v.e0, c1 := m.c1.smul v.e1, c2 := m.c2.smul v.e2, c3 := m.c3 }

/-- The function `glm::make_mat3(ptr)`: nine consecutive floats, read column by column. -/
def make_mat3 (a : Float9) : Mat3 :=
  { c0 := ⟨a.m0, a.m1, a.m2⟩, c1 := ⟨a.m3, a.m4, a.m5⟩, c2 := ⟨a.m6, a.m7, a.m8⟩ }

/-- The function `glm::value_ptr(m)` for a `mat3`, read as the nine floats it points to. -/
def value_ptr (m : Mat3) : Float9 :=
  { m0 := m.c0.e0, m1 := m.c0.e1, m2 := m.c0.e2
    m3 := m.c1.e0, m4 := m.c1.e1, m5 := m.c1.e2
    m6 := m.c2.e0, m7 := m.c2.e1, m8 := m.c2.e2 }

/-- The product `m1 * m2` of two `glm::mat3`: entry (column `j`, row `i`) of the result is
`Σ k, m1[k][i] * m2[j][k]`. -/
def Mat3.mul (a b : Mat3) : Mat3 :=
  { c0 := ⟨a.c0.e0 * b.c0.e0 + a.c1.e0 * b.c0.e1 + a.c2.e0 * b.c0.e2,
           a.c0.e1 * b.c0.e0 + a.c1.e1 * b.c0.e1 + a.c2.e1 * b.c0.e2,
           a.c0.e2 * b.c0.e0 + a.c1.e2 * b.c0.e1 + a.c2.e2 * b.c0.e2⟩
    c1 := ⟨a.c0.e0 * b.c1.e0 + a.c1.e0 * b.c1.e1 + a.c2.e0 * b.c1.e2,
           a.c0.e1 * b.c1.e0 + a.c1.e1 * b.c1.e1 + a.c2.e1 * b.c1.e2,
           a.c0.e2 * b.c1.e0 + a.c1.e2 * b.c1.e1 + a.c2.e2 * b.c1.e2⟩
    c2 := ⟨a.c0.e0 * b.c2.e0 + a.c1.e0 * b.c2.e1 + a.c2.e0 * b.c2.e2,
           a.c0.e1 * b.c2.e0 + a.c1.e1 * b.c2.e1 + a.c2.e1 * b.c2.e2,
           a.c0.e2 * b.c2.e0 + a.c1.e2 * b.c2.e1 + a.c2.e2 * b.c2.e2⟩ }

/-- The product `m * v` of a `glm::mat4` with a `glm::vec4`. -/
def Mat4.mulVec (m : Mat4) (v : Float4) : Float4 :=
  (((m.c0.smul v.e0).add (m.c1.smul v.e1)).add (m.c2.smul v.e2)).add (m.c3.smul v.e3)

/-- The product `a * b` of two `glm::mat4`: column `j` of the result is `a * b[j]`. -/
def Mat4.mul (a b : Mat4) : Mat4 :=
  { c0 := a.mulVec b.c0, c1 := a.mulVec b.c1, c2 := a.mulVec b.c2, c3 := a.mulVec b.c3 }

/-! ## The class `TrackBall` -/

/-- The static initialisers of the class and of the function-local statics: no callbacks,
translation and offset zero, rotation `{0, 0, 1, 0}`, scale one, mode `TM_ROTATE`. -/
def init : State :=
  { _AppDoubleClickFunctionCB := none
    _AppMouseButtonFunctionCB := none
    _AppMouseMotionFunctionCB := none
    _Translation := ⟨0, 0, 0⟩
    _Offset := ⟨0, 0, 0⟩
    _Rotation := ⟨0, 0, 1, 0⟩
    _Scale := ⟨1, 1, 1⟩
    _TrackBallMatrix := mat4Identity
    _OldMouseX := 0
    _OldMouseY := 0
    _MouseButtonPressed := false
    eval := { mode := TM_ROTATE, key_modifier_prev := 0 }
    dblclick_start := 0
    dblclick_finish := 0
    calls := []
    redisplays := 0 }

/-- The member `registerDoubleClick(func)`; `none` is the null pointer. -/
def registerDoubleClick (func : Option Nat) (s : State) : State :=
  if func ≠ none then { s with _AppDoubleClickFunctionCB := func } else s

/-- The member `registerMouseButton(func)`. -/
def registerMouseButton (func : Option Nat) (s : State) : State :=
  if func ≠ none then { s with _AppMouseButtonFunctionCB := func } else s

/-- The member `registerMouseMotion(func)`. -/
def registerMouseMotion (func : Option Nat) (s : State) : State :=
  if func ≠ none then { s with _AppMouseMotionFunctionCB := func } else s

/-- The member `axisAmountToMat(aa, mat)`: the nine floats written to `mat`. -/
noncomputable def axisAmountToMat (aa : Float4) : Float9 :=
  let c := Real.cos aa.e3
  let s := Real.sin aa.e3
  let t := 1 - c
  { m0 := t * aa.e0 * aa.e0 + c
    m1 := t * aa.e0 * aa.e1 + s * aa.e2
    m2 := t * aa.e0 * aa.e2 - s * aa.e1
    m3 := t * aa.e0 * aa.e1 - s * aa.e2
    m4 := t * aa.e1 * aa.e1 + c
    m5 := t * aa.e1 * aa.e2 + s * aa.e0
    m6 := t * aa.e0 * aa.e2 + s * aa.e1
    m7 := t * aa.e1 * aa.e2 - s * aa.e0
    m8 := t * aa.e2 * aa.e2 + c }

/-- The C++ conversion `(int)x` of a floating point value: truncation towards zero. -/
noncomputable def truncToInt (x : ℝ) : Int :=
  if 0 ≤ x then ⌊x⌋ else ⌈x⌉

/-- The member `matToAxisAmount(mat, aa)`: the four floats written to `aa` (all four are
overwritten, so the previous content of `aa` plays no role).  `acos` is read as the total function
`Real.arccos`; this agrees with the C function when `(trace - 1) / 2` lies in `[-1, 1]`, and
`matToAxisAmountChecked` below covers the other case. -/
noncomputable def matToAxisAmount (mat : Float9) : Float4 :=
  let c := (mat.m0 + mat.m4 + mat.m8 - 1) / 2
  let aa3 := Real.arccos c
  let s := Real.sin aa3
  if |s / Real.pi - ((truncToInt (s / Real.pi) : Int) : ℝ)| < 0.0000001 then
    { e0 := 0, e1 := 1, e2 := 0, e3 := aa3 }
  else
    { e0 := (mat.m5 - mat.m7) / (2 * s)
      e1 := (mat.m6 - mat.m2) / (2 * s)
      e2 := (mat.m1 - mat.m3) / (2 * s)
      e3 := aa3 }

/-- The first value of `dist` in `rotateTrackball`: `sqrt((double)(dx * dx + dy * dy))`. -/
noncomputable def dragDist (dx dy : Int) : ℝ :=
  Real.sqrt (((dx * dx + dy * dy : Int) : ℝ))

/-- The array `newRot` built in `rotateTrackball`. -/
noncomputable def newRot (viewportWidth dx dy : Int) : Float4 :=
  { e0 := (dy : ℝ) / dragDist dx dy
    e1 := (dx : ℝ) / dragDist dx dy
    e2 := 0
    e3 := Real.pi * dragDist dx dy / (viewportWidth : ℝ) }

/-- The matrix `mult` of `rotateTrackball`: `make_mat3(oldMat) * make_mat3(rotMat)`. -/
noncomputable def multMat (viewportWidth dx dy : Int) (rotation : Float4) : Mat3 :=
  (make_mat3 (axisAmountToMat rotation)).mul
    (make_mat3 (axisAmountToMat (newRot viewportWidth dx dy)))

/-- The content of `rotation` in `rotateTrackball` right after the call of `matToAxisAmount`,
before the final division by the axis length. -/
noncomputable def composedRotation (viewportWidth dx dy : Int) (rotation : Float4) : Float4 :=
  matToAxisAmount (value_ptr (multMat viewportWidth dx dy rotation))

/-- The second value of `dist` in `rotateTrackball`: the length of the axis `v`, by which the
axis is divided. -/
noncomputable def axisLength (v : Float4) : ℝ :=
  Real.sqrt (v.e0 * v.e0 + v.e1 * v.e1 + v.e2 * v.e2)

/-- The member `rotateTrackball(dx, dy, rotation)`: the content of `rotation` on return.
`viewportWidth` is `viewport[2]`. -/
noncomputable def rotateTrackball (viewportWidth dx dy : Int) (rotation : Float4) : Float4 :=
  if |dragDist dx dy| < 0.99 then rotation
  else
    let r := composedRotation viewportWidth dx dy rotation
    let dist := axisLength r
    { e0 := r.e0 / dist, e1 := r.e1 / dist, e2 := r.e2 / dist, e3 := r.e3 }

/-- The member `evaluateTrackballMode(new_mode)` on its statics: the returned mode and the
statics afterwards.  `modifiers` is the value of `glutGetModifiers()`; a call without argument
passes `TM_INVALID`. -/
def evaluateTrackballMode (modifiers : Int) (new_mode : TrackballModeT) (e : EvalStatics) :
    TrackballModeT × EvalStatics :=
  if new_mode ≠ TM_INVALID then
    (new_mode, { e with mode := new_mode })
  else
    -- (key_state, key_modifier_prev, key_modifier) after the first `if`
    let r : Int × Int × Int :=
      if e.key_modifier_prev ≠ modifiers then
        if modifiers > 0 then (GLUT_DOWN, modifiers, modifiers)
        else (GLUT_UP, modifiers, e.key_modifier_prev)
      else (0, e.key_modifier_prev, modifiers)
    let key_state := r.1
    let key_modifier := r.2.2
    let mode : TrackballModeT :=
      if key_modifier = GLUT_ACTIVE_SHIFT then
        if key_state = GLUT_DOWN then TM_TRANSLATEZ
        else if e.mode = TM_TRANSLATEZ then TM_ROTATE else e.mode
      else if key_modifier = GLUT_ACTIVE_CTRL then
        if key_state = GLUT_DOWN then TM_TRANSLATEXY
        else if e.mode = TM_TRANSLATEXY then TM_ROTATE else e.mode
      else if key_modifier = GLUT_ACTIVE_ALT then
        if key_state = GLUT_DOWN then TM_SCALE
        else if e.mode = TM_SCALE then TM_ROTATE else e.mode
      else e.mode
    (mode, { mode := mode, key_modifier_prev := r.2.1 })

/-- The call `evaluateTrackballMode(new_mode)` on the whole state. -/
def evalMode (modifiers : Int) (new_mode : TrackballModeT) (s : State) :
    TrackballModeT × State :=
  ((evaluateTrackballMode modifiers new_mode s.eval).1,
   { s with eval := (evaluateTrackballMode modifiers new_mode s.eval).2 })

/-- The matrix computed by `getTransformation()`. -/
noncomputable def transformation (s : State) : Mat4 :=
  let m0 := mat4Identity
  let m1 := glmTranslate m0 s._Offset
  let m2 := glmTranslate m1 s._Translation
  let m3 := glmRotate m2 s._Rotation.e3 ⟨s._Rotation.e0, s._Rotation.e1, s._Rotation.e2⟩
  let m4 := glmScale m3 s._Scale
  glmTranslate m4 ⟨-s._Offset.e0, -s._Offset.e1, -s._Offset.e2⟩

/-- The member `getTransformation()`: the matrix is stored in `_TrackBallMatrix` and a reference
to it is returned. -/
noncomputable def getTransformation (s : State) : Mat4 × State :=
  (transformation s, { s with _TrackBallMatrix := transformation s })

/-- The member `resetTransformation()`. -/
def resetTransformation (s : State) : State :=
  { s with
    _Translation := ⟨0, 0, 0⟩
    _Rotation := ⟨0, 0, 1, 0⟩
    _Scale := ⟨1, 1, 1⟩
    _OldMouseX := 0
    _OldMouseY := 0 }

/-- The call `glutPostRedisplay()`. -/
def glutPostRedisplay (s : State) : State :=
  { s with redisplays := s.redisplays + 1 }

/-- The statement `_Scale[0] = _Scale[1] = _Scale[2] += d;`. -/
def scaleAdd (d : ℝ) (s : State) : State :=
  { s with _Scale := ⟨s._Scale.e2 + d, s._Scale.e2 + d, s._Scale.e2 + d⟩ }

/-- The statement `_Scale[0] = _Scale[1] = _Scale[2] = v;`. -/
def scaleSet (v : ℝ) (s : State) : State :=
  { s with _Scale := ⟨v, v, v⟩ }

/-- The statement `if (_Scale[0] > 5.0) _Scale[0] = _Scale[1] = _Scale[2] = 5.0f;`. -/
noncomputable def clampUp (s : State) : State :=
  if s._Scale.e0 > 5.0 then scaleSet 5.0 s else s

/-- The statement `if (_Scale[0] < 0.025) _Scale[0] = _Scale[1] = _Scale[2] = 0.025f;`. -/
noncomputable def clampDown (s : State) : State :=
  if s._Scale.e0 < 0.025 then scaleSet 0.025 s else s

/-- The member `setOffset(offset)`. -/
def setOffset (offset : Float3) (s : State) : State :=
  { s with _Offset := ⟨offset.e0, offset.e1, offset.e2⟩ }

/-- What a `float*` inside `getOffset` can point to. -/
inductive OffsetPtr where
  | callerArray
  | memberOffset
  deriving DecidableEq, Repr

/-- The member `getOffset(float offset[3]) { offset = _Offset; }`.  The parameter is a pointer
passed by value; the only statement makes this local pointer point to `_Offset`.  Nothing is
stored through a pointer, so the caller's array (`buf`) and the state are as before.  The result
is the caller's array after the call, together with the final value of the local pointer. -/
def getOffset (_s : State) (buf : Float3) : Float3 × OffsetPtr :=
  (buf, OffsetPtr.memberOffset)

/-- Invocation of a callback slot: nothing happens for the null pointer. -/
def invoke (slot : Option Nat) (c : Nat → Call) (s : State) : State :=
  match slot with
  | some f => { s with calls := s.calls ++ [c f] }
  | none => s

/-- The member `glutMouseMotionCB(x, y)`. -/
noncomputable def glutMouseMotionCB (env : Env) (x y : Int) (s : State) : State :=
  -- (dx, dy) and the state after the first `if`
  let dx : Int := if s._MouseButtonPressed then x - s._OldMouseX else 0
  let dy : Int := if s._MouseButtonPressed then y - s._OldMouseY else 0
  let s1 : State :=
    if s._MouseButtonPressed then
      { invoke s._AppMouseMotionFunctionCB
          (fun f => Call.mouseMotion f s._OldMouseX s._OldMouseY x y) s with
        _OldMouseX := x
        _OldMouseY := y }
    else s
  let s2 := (evalMode env.modifiers TM_INVALID s1).2
  let s3 : State :=
    match (evalMode env.modifiers TM_INVALID s1).1 with
    | TM_ROTATE =>
        { s2 with _Rotation := rotateTrackball env.viewportWidth dx dy s2._Rotation }
    | TM_SCALE =>
        let s2a := scaleAdd ((dy : ℝ) / 40.0) s2
        if s2a._Scale.e0 < 0.025 then scaleSet 0.025 s2a
        else if s2a._Scale.e0 > 5.0 then scaleSet 5.0 s2a
        else s2a
    | TM_TRANSLATEXY =>
        { s2 with
          _Translation := ⟨s2._Translation.e0 + (dx : ℝ) / 100.0,
                           s2._Translation.e1 - (dy : ℝ) / 100.0,
                           s2._Translation.e2⟩ }
    | TM_TRANSLATEZ =>
        { s2 with
          _Translation := ⟨s2._Translation.e0, s2._Translation.e1,
                           s2._Translation.e2 + (dy : ℝ) / 40.0⟩ }
    | TM_INVALID => s2
  glutPostRedisplay s3

/-- The member `glutMouseButtonCB(button, state, x, y)`. -/
noncomputable def glutMouseButtonCB (env : Env) (button state x y : Int) (s : State) : State :=
  let dblclick_diff : Int := 400
  let s1 : State := { s with _OldMouseX := x, _OldMouseY := y }
  let s2 : State :=
    if state = GLUT_UP then
      let a : State := { s1 with _MouseButtonPressed := false }
      if button = GLUT_MIDDLE_BUTTON then (evalMode env.modifiers TM_ROTATE a).2 else a
    else if button = GLUT_LEFT_BUTTON ∨ button = GLUT_MIDDLE_BUTTON ∨
        button = GLUT_RIGHT_BUTTON then
      let a : State := { s1 with _MouseButtonPressed := true }
      let b := invoke a._AppMouseButtonFunctionCB (fun f => Call.mouseButton f x y x y) a
      let c := if button = GLUT_MIDDLE_BUTTON then (evalMode env.modifiers TM_TRANSLATEZ b).2
        else b
      let d : State := { c with dblclick_finish := env.clock }
      let e :=
        if d.dblclick_finish - d.dblclick_start < dblclick_diff ∧
            d._AppDoubleClickFunctionCB ≠ none then
          invoke d._AppDoubleClickFunctionCB (fun f => Call.doubleClick f x y) d
        else d
      { e with dblclick_start := e.dblclick_finish }
    else if button = GLUT_RIGHT_BUTTON + 1 then
      clampUp (scaleAdd 0.05 s1)
    else
      clampDown (scaleAdd (-0.05) s1)
  glutPostRedisplay s2

/-- The member `glutSpecialFuncCB(key, x, y)`; the coordinates are not used. -/
noncomputable def glutSpecialFuncCB (env : Env) (key _x _y : Int) (s : State) : State :=
  if key = GLUT_KEY_HOME then
    glutPostRedisplay (resetTransformation s)
  else
    let s1 := (evalMode env.modifiers TM_INVALID s).2
    let w := env.viewportWidth
    match (evalMode env.modifiers TM_INVALID s).1 with
    | TM_ROTATE =>
        if key = GLUT_KEY_UP then
          glutPostRedisplay { s1 with _Rotation := rotateTrackball w 0 (-10) s1._Rotation }
        else if key = GLUT_KEY_DOWN then
          glutPostRedisplay { s1 with _Rotation := rotateTrackball w 0 10 s1._Rotation }
        else if key = GLUT_KEY_LEFT then
          glutPostRedisplay { s1 with _Rotation := rotateTrackball w (-10) 0 s1._Rotation }
        else if key = GLUT_KEY_RIGHT then
          glutPostRedisplay { s1 with _Rotation := rotateTrackball w 10 0 s1._Rotation }
        else s1
    | TM_TRANSLATEXY =>
        let t := s1._Translation
        if key = GLUT_KEY_UP then
          glutPostRedisplay { s1 with _Translation := ⟨t.e0, t.e1 + 0.1, t.e2⟩ }
        else if key = GLUT_KEY_DOWN then
          glutPostRedisplay { s1 with _Translation := ⟨t.e0, t.e1 - 0.1, t.e2⟩ }
        else if key = GLUT_KEY_LEFT then
          glutPostRedisplay { s1 with _Translation := ⟨t.e0 - 0.1, t.e1, t.e2⟩ }
        else if key = GLUT_KEY_RIGHT then
          glutPostRedisplay { s1 with _Translation := ⟨t.e0 + 0.1, t.e1, t.e2⟩ }
        else s1
    | TM_TRANSLATEZ =>
        let t := s1._Translation
        if key = GLUT_KEY_UP then
          glutPostRedisplay { s1 with _Translation := ⟨t.e0, t.e1, t.e2 - 0.1⟩ }
        else if key = GLUT_KEY_DOWN then
          glutPostRedisplay { s1 with _Translation := ⟨t.e0, t.e1, t.e2 + 0.1⟩ }
        else s1
    | TM_SCALE =>
        if key = GLUT_KEY_UP then
          glutPostRedisplay (clampUp (scaleAdd 0.05 s1))
        else if key = GLUT_KEY_DOWN then
          glutPostRedisplay (clampDown (scaleAdd (-0.05) s1))
        else s1
    | TM_INVALID => s1

/-! ## Event sequences -/

/-- An event delivered by the window system, with what the handler reads from the environment
while it runs. -/
inductive Event where
  | button (env : Env) (button state x y : Int)
  | motion (env : Env) (x y : Int)
  | special (env : Env) (key x y : Int)

/-- The handler registered for an event. -/
noncomputable def step (s : State) (ev : Event) : State :=
  match ev with
  | Event.button env b st x y => glutMouseButtonCB env b st x y s
  | Event.motion env x y => glutMouseMotionCB env x y s
  | Event.special env k x y => glutSpecialFuncCB env k x y s

/-- The state after a sequence of events, oldest first. -/
noncomputable def run (s : State) (evs : List Event) : State :=
  evs.foldl step s

/-- One update of the accumulated rotation: a call of `rotateTrackball` or a reset. -/
inductive RotOp where
  | rotate (viewportWidth dx dy : Int)
  | reset

/-- The effect of a rotation update on `_Rotation`. -/
noncomputable def RotOp.apply (r : Float4) (op : RotOp) : Float4 :=
  match op with
  | RotOp.rotate w dx dy => rotateTrackball w dx dy r
  | RotOp.reset => (resetTransformation { init with _Rotation := r })._Rotation

/-! ## Predicates used in the statements -/

/-- Every scale component lies in the closed interval `[0.025, 5.0]`. -/
def ScaleInRange (s : State) : Prop :=
  (0.025 ≤ s._Scale.e0 ∧ s._Scale.e0 ≤ 5.0) ∧
  (0.025 ≤ s._Scale.e1 ∧ s._Scale.e1 ≤ 5.0) ∧
  (0.025 ≤ s._Scale.e2 ∧ s._Scale.e2 ≤ 5.0)

/-- The axis part of a rotation has Euclidean length one (`e0² + e1² + e2² = 1`). -/
def UnitAxis (r : Float4) : Prop :=
  r.e0 * r.e0 + r.e1 * r.e1 + r.e2 * r.e2 = 1

/-- The three columns of a column-major 3x3 matrix are orthonormal. -/
def OrthoCols (m : Float9) : Prop :=
  m.m0 * m.m0 + m.m1 * m.m1 + m.m2 * m.m2 = 1 ∧
  m.m0 * m.m3 + m.m1 * m.m4 + m.m2 * m.m5 = 0 ∧
  m.m0 * m.m6 + m.m1 * m.m7 + m.m2 * m.m8 = 0 ∧
  m.m3 * m.m3 + m.m4 * m.m4 + m.m5 * m.m5 = 1 ∧
  m.m3 * m.m6 + m.m4 * m.m7 + m.m5 * m.m8 = 0 ∧
  m.m6 * m.m6 + m.m7 * m.m7 + m.m8 * m.m8 = 1

/-- Every entry of a column-major 3x3 matrix equals its cofactor (true of the orthogonal matrices
of determinant one). -/
def SelfCofactor (m : Float9) : Prop :=
  m.m4 * m.m8 - m.m7 * m.m5 = m.m0 ∧
  -(m.m1 * m.m8 - m.m7 * m.m2) = m.m3 ∧
  m.m1 * m.m5 - m.m4 * m.m2 = m.m6 ∧
  -(m.m3 * m.m8 - m.m6 * m.m5) = m.m1 ∧
  m.m0 * m.m8 - m.m6 * m.m2 = m.m4 ∧
  -(m.m0 * m.m5 - m.m3 * m.m2) = m.m7 ∧
  m.m3 * m.m7 - m.m6 * m.m4 = m.m2 ∧
  -(m.m0 * m.m7 - m.m6 * m.m1) = m.m5 ∧
  m.m0 * m.m4 - m.m3 * m.m1 = m.m8

/-- Sum of the squares of the nine entries. -/
def frobeniusSq (m : Float9) : ℝ :=
  m.m0 * m.m0 + m.m1 * m.m1 + m.m2 * m.m2 + m.m3 * m.m3 + m.m4 * m.m4 + m.m5 * m.m5 +
    m.m6 * m.m6 + m.m7 * m.m7 + m.m8 * m.m8

/-- Sum of the three principal 2x2 minors. -/
def principalMinors (m : Float9) : ℝ :=
  (m.m4 * m.m8 - m.m7 * m.m5) + (m.m0 * m.m8 - m.m6 * m.m2) + (m.m0 * m.m4 - m.m3 * m.m1)

/-- Trace of a column-major 3x3 matrix. -/
def trace (m : Float9) : ℝ :=
  m.m0 + m.m4 + m.m8

/-- Squared length of the vector `(m5 - m7, m6 - m2, m1 - m3)` that `matToAxisAmount` divides by
`2 s`. -/
def skewSq (m : Float9) : ℝ :=
  (m.m5 - m.m7) * (m.m5 - m.m7) + (m.m6 - m.m2) * (m.m6 - m.m2) + (m.m1 - m.m3) * (m.m1 - m.m3)

/-- The viewport width of a rotation update is positive. -/
def RotOp.WidthPositive (op : RotOp) : Prop :=
  match op with
  | RotOp.rotate w _ _ => 0 < w
  | RotOp.reset => True

/-- The accumulated rotation after a sequence of rotation updates, oldest first, starting from
the initial rotation `{0, 0, 1, 0}`. -/
noncomputable def rotationAfter (ops : List RotOp) : Float4 :=
  ops.foldl RotOp.apply init._Rotation

/-! ## The transformation as the specification describes it -/

/-- Sum of two vectors. -/
def Float3.add (v w : Float3) : Float3 :=
  ⟨v.e0 + w.e0, v.e1 + w.e1, v.e2 + w.e2⟩

/-- Difference of two vectors. -/
def Float3.sub (v w : Float3) : Float3 :=
  ⟨v.e0 - w.e0, v.e1 - w.e1, v.e2 - w.e2⟩

/-- The vector `k * v`. -/
def Float3.scaleBy (k : ℝ) (v : Float3) : Float3 :=
  ⟨k * v.e0, k * v.e1, k * v.e2⟩

/-- The vector `-v`. -/
def Float3.neg (v : Float3) : Float3 :=
  ⟨-v.e0, -v.e1, -v.e2⟩

/-- Dot product. -/
def Float3.dot (v w : Float3) : ℝ :=
  v.e0 * w.e0 + v.e1 * w.e1 + v.e2 * w.e2

/-- Cross product. -/
def Float3.cross (v w : Float3) : Float3 :=
  ⟨v.e1 * w.e2 - v.e2 * w.e1, v.e2 * w.e0 - v.e0 * w.e2, v.e0 * w.e1 - v.e1 * w.e0⟩

/-- The rotation `R(a, θ)` of a vector `v` about the unit axis `a` by the angle `θ`
(Rodrigues' formula): `v cos θ + (a × v) sin θ + a (a · v) (1 - cos θ)`. -/
noncomputable def rodrigues (a : Float3) (θ : ℝ) (v : Float3) : Float3 :=
  ((Float3.scaleBy (Real.cos θ) v).add (Float3.scaleBy (Real.sin θ) (a.cross v))).add
    (Float3.scaleBy (a.dot v * (1 - Real.cos θ)) a)

/-- The image of the point `p` under the 4x4 matrix `m`: the first three components of
`m * vec4(p, 1)`. -/
def transformPoint (m : Mat4) (p : Float3) : Float3 :=
  ⟨(m.mulVec ⟨p.e0, p.e1, p.e2, 1⟩).e0, (m.mulVec ⟨p.e0, p.e1, p.e2, 1⟩).e1,
   (m.mulVec ⟨p.e0, p.e1, p.e2, 1⟩).e2⟩

/-- A direction as a `vec4` with last component zero. -/
def Float3.dir (v : Float3) : Float4 :=
  ⟨v.e0, v.e1, v.e2, 0⟩

/-- The translation matrix `T(v)`. -/
def matT (v : Float3) : Mat4 :=
  { c0 := ⟨1, 0, 0, 0⟩, c1 := ⟨0, 1, 0, 0⟩, c2 := ⟨0, 0, 1, 0⟩, c3 := ⟨v.e0, v.e1, v.e2, 1⟩ }

/-- The rotation matrix `R(a, θ)`: its columns are the images of the three unit vectors under
`rodrigues a θ`. -/
noncomputable def matR (a : Float3) (θ : ℝ) : Mat4 :=
  { c0 := (rodrigues a θ ⟨1, 0, 0⟩).dir
    c1 := (rodrigues a θ ⟨0, 1, 0⟩).dir
    c2 := (rodrigues a θ ⟨0, 0, 1⟩).dir
    c3 := ⟨0, 0, 0, 1⟩ }

/-- The uniform scaling matrix `S(k)`. -/
def matS (k : ℝ) : Mat4 :=
  { c0 := ⟨k, 0, 0, 0⟩, c1 := ⟨0, k, 0, 0⟩, c2 := ⟨0, 0, k, 0⟩, c3 := ⟨0, 0, 0, 1⟩ }

/-- The axis part of a rotation. -/
def Float4.axis (r : Float4) : Float3 :=
  ⟨r.e0, r.e1, r.e2⟩

/-- The state of the pivot example: offset `(1,0,0)`, scale `2`, no rotation, no translation. -/
def pivotExample : State :=
  { init with _Offset := ⟨1, 0, 0⟩, _Scale := ⟨2, 2, 2⟩ }

/-! ## Double click -/

/-- Whether a recorded call is a call of the double-click callback. -/
def Call.isDoubleClick (c : Call) : Bool :=
  match c with
  | Call.doubleClick _ _ _ => true
  | _ => false

/-- Number of invocations of the double-click callback recorded in a state. -/
def doubleClicks (s : State) : Nat :=
  (s.calls.filter Call.isDoubleClick).length

/-- The state after registering the double-click callback `f` on the initial state and feeding
two press events (`GLUT_DOWN`) of the buttons `b1`, `b2` at the position `(x, y)`; `e1` and `e2`
hold what the handler reads from the environment, in particular the two clock values. -/
noncomputable def afterTwoPresses (f : Nat) (e1 e2 : Env) (b1 b2 x y : Int) : State :=
  glutMouseButtonCB e2 b2 GLUT_DOWN x y
    (glutMouseButtonCB e1 b1 GLUT_DOWN x y (registerDoubleClick (some f) init))

/-! ## Further predicates and operation sequences -/

/-- The three scale components are equal to each other. -/
def ScaleUniform (s : State) : Prop :=
  s._Scale.e0 = s._Scale.e1 ∧ s._Scale.e1 = s._Scale.e2

/-- The member `applyTransformation()`: it calls `getTransformation()` and hands the matrix to
`glMultMatrixf`, which is outside the class. -/
noncomputable def applyTransformation (s : State) : State :=
  (getTransformation s).2

/-- One call into the class from the application or the window system: an event handler or one
of the public member functions. -/
inductive Op where
  | event (ev : Event)
  | setOffset (offset : Float3)
  | getOffset (buf : Float3)
  | registerDoubleClick (func : Option Nat)
  | registerMouseButton (func : Option Nat)
  | registerMouseMotion (func : Option Nat)
  | resetTransformation
  | getTransformation
  | applyTransformation

/-- The state after one call into the class. -/
noncomputable def Op.apply (s : State) (op : Op) : State :=
  match op with
  | Op.event ev => step s ev
  | Op.setOffset o => TrackBall.setOffset o s
  | Op.getOffset _ => s
  | Op.registerDoubleClick f => TrackBall.registerDoubleClick f s
  | Op.registerMouseButton f => TrackBall.registerMouseButton f s
  | Op.registerMouseMotion f => TrackBall.registerMouseMotion f s
  | Op.resetTransformation => TrackBall.resetTransformation s
  | Op.getTransformation => (TrackBall.getTransformation s).2
  | Op.applyTransformation => TrackBall.applyTransformation s

/-- A state is reachable from the initial state: it is the state after some sequence of calls
into the class. -/
def Reachable (s : State) : Prop :=
  ∃ ops : List Op, s = ops.foldl Op.apply init

/-! ## Callback registration -/

/-- One registration call, with the argument passed (`none` is the null default argument). -/
inductive Registration where
  | doubleClick (func : Option Nat)
  | mouseButton (func : Option Nat)
  | mouseMotion (func : Option Nat)

/-- The state after one registration call. -/
def Registration.apply (s : State) (r : Registration) : State :=
  match r with
  | Registration.doubleClick f => registerDoubleClick f s
  | Registration.mouseButton f => registerMouseButton f s
  | Registration.mouseMotion f => registerMouseMotion f s

/-- The state after a sequence of registration calls on the initial state, oldest first. -/
def registerAll (regs : List Registration) : State :=
  regs.foldl Registration.apply init

/-- The argument of a registration call if it is a call of `registerDoubleClick`. -/
def Registration.doubleClickArg (r : Registration) : Option (Option Nat) :=
  match r with
  | Registration.doubleClick f => some f
  | _ => none

/-- The argument of a registration call if it is a call of `registerMouseButton`. -/
def Registration.mouseButtonArg (r : Registration) : Option (Option Nat) :=
  match r with
  | Registration.mouseButton f => some f
  | _ => none

/-- The argument of a registration call if it is a call of `registerMouseMotion`. -/
def Registration.mouseMotionArg (r : Registration) : Option (Option Nat) :=
  match r with
  | Registration.mouseMotion f => some f
  | _ => none

/-- The last entry of a list of arguments that is not the null pointer; `none` if every entry is
null or the list is empty. -/
def lastNonNull : List (Option Nat) → Option Nat
  | [] => none
  | a :: rest =>
    match lastNonNull rest with
    | some f => some f
    | none => a

/-- Whether a recorded call is a call of the mouse-button callback. -/
def Call.isMouseButton (c : Call) : Bool :=
  match c with
  | Call.mouseButton _ _ _ _ _ => true
  | _ => false

/-- Whether a recorded call is a call of the mouse-motion callback. -/
def Call.isMouseMotion (c : Call) : Bool :=
  match c with
  | Call.mouseMotion _ _ _ _ _ => true
  | _ => false

/-! ## Sequences of mode queries -/

/-- The statics of `evaluateTrackballMode` after a sequence of calls without argument (keyboard
path), one modifier value per call, oldest first. -/
def evalAfter (e : EvalStatics) (mods : List Int) : EvalStatics :=
  mods.foldl (fun st m => (evaluateTrackballMode m TM_INVALID st).2) e

/-- The modes returned by a sequence of calls of `evaluateTrackballMode` without argument, one
modifier value per call, oldest first. -/
def queryModes (e : EvalStatics) : List Int → List TrackballModeT
  | [] => []
  | m :: ms =>
    (evaluateTrackballMode m TM_INVALID e).1 ::
      queryModes (evaluateTrackballMode m TM_INVALID e).2 ms

/-- A modifier value that is 'none' or exactly one of Shift, Ctrl, Alt. -/
def SingleModifier (m : Int) : Prop :=
  m = 0 ∨ m = GLUT_ACTIVE_SHIFT ∨ m = GLUT_ACTIVE_CTRL ∨ m = GLUT_ACTIVE_ALT

/-- The mode that a held modifier value selects on the keyboard path when the query sees no
transition: the mode of Shift, Ctrl or Alt, and the current mode `cur` for every other value. -/
def heldMode (k : Int) (cur : TrackballModeT) : TrackballModeT :=
  if k = GLUT_ACTIVE_SHIFT then TM_TRANSLATEZ
  else if k = GLUT_ACTIVE_CTRL then TM_TRANSLATEXY
  else if k = GLUT_ACTIVE_ALT then TM_SCALE
  else cur

/-! ## Rotation matrices -/

/-- The three rows of a column-major 3x3 matrix are orthonormal. -/
def OrthoRows (m : Float9) : Prop :=
  m.m0 * m.m0 + m.m3 * m.m3 + m.m6 * m.m6 = 1 ∧
  m.m0 * m.m1 + m.m3 * m.m4 + m.m6 * m.m7 = 0 ∧
  m.m0 * m.m2 + m.m3 * m.m5 + m.m6 * m.m8 = 0 ∧
  m.m1 * m.m1 + m.m4 * m.m4 + m.m7 * m.m7 = 1 ∧
  m.m1 * m.m2 + m.m4 * m.m5 + m.m7 * m.m8 = 0 ∧
  m.m2 * m.m2 + m.m5 * m.m5 + m.m8 * m.m8 = 1

/-! ## Cursor keys and drags -/

/-- The 10-pixel pointer delta `(dx, dy)` toward the screen direction of an arrow key
(Up: `dy < 0`, Down: `dy > 0`, Left: `dx < 0`, Right: `dx > 0`); `none` for other keys. -/
def arrowDelta (key : Int) : Option (Int × Int) :=
  if key = GLUT_KEY_UP then some (0, -10)
  else if key = GLUT_KEY_DOWN then some (0, 10)
  else if key = GLUT_KEY_LEFT then some (-10, 0)
  else if key = GLUT_KEY_RIGHT then some (10, 0)
  else none

/-- The state right after a left-button press at `(0,0)` on the initial state while Alt is
held. -/
noncomputable def altPressed : State :=
  glutMouseButtonCB ⟨GLUT_ACTIVE_ALT, 640, 0⟩ GLUT_LEFT_BUTTON GLUT_DOWN 0 0 init

/-! ## Rounded arithmetic and the domain of `acos` -/

theorem scale_evalMode (m : Int) (n : TrackballModeT) (s : State) :
    (evalMode m n s).2._Scale = s._Scale := rfl

theorem scale_glutPostRedisplay (s : State) : (glutPostRedisplay s)._Scale = s._Scale := rfl

theorem scale_invoke (slot : Option Nat) (c : Nat → Call) (s : State) :
    (invoke slot c s)._Scale = s._Scale := by
  cases slot <;> rfl

theorem scaleInRange_congr {s t : State} (h : t._Scale = s._Scale) (hs : ScaleInRange s) :
    ScaleInRange t := by
  unfold ScaleInRange at *
  rw [h]
  exact hs

theorem scaleInRange_scaleSet (v : ℝ) (s : State) (h1 : 0.025 ≤ v) (h2 : v ≤ 5.0) :
    ScaleInRange (scaleSet v s) :=
  ⟨⟨h1, h2⟩, ⟨h1, h2⟩, ⟨h1, h2⟩⟩

theorem scaleInRange_clampUp (s : State) (hs : ScaleInRange s) :
    ScaleInRange (clampUp (scaleAdd 0.05 s)) := by
  obtain ⟨-, -, h3, h4⟩ := hs
  unfold clampUp
  split
  · exact scaleInRange_scaleSet _ _ (by norm_num) (by norm_num)
  · rename_i h
    simp only [scaleAdd, gt_iff_lt, not_lt] at h
    simp only [ScaleInRange, scaleAdd]
    refine ⟨⟨?_, h⟩, ⟨?_, h⟩, ⟨?_, h⟩⟩ <;> linarith

theorem scaleInRange_clampDown (s : State) (hs : ScaleInRange s) :
    ScaleInRange (clampDown (scaleAdd (-0.05) s)) := by
  obtain ⟨-, -, h3, h4⟩ := hs
  unfold clampDown
  split
  · exact scaleInRange_scaleSet _ _ (by norm_num) (by norm_num)
  · rename_i h
    simp only [scaleAdd, not_lt] at h
    simp only [ScaleInRange, scaleAdd]
    refine ⟨⟨h, ?_⟩, ⟨h, ?_⟩, ⟨h, ?_⟩⟩ <;> linarith

theorem scaleInRange_motionScale (d : ℝ) (s : State) :
    ScaleInRange
      (if (scaleAdd d s)._Scale.e0 < 0.025 then scaleSet 0.025 (scaleAdd d s)
       else if (scaleAdd d s)._Scale.e0 > 5.0 then scaleSet 5.0 (scaleAdd d s)
       else scaleAdd d s) := by
  split
  · exact scaleInRange_scaleSet _ _ (by norm_num) (by norm_num)
  · rename_i h1
    split
    · exact scaleInRange_scaleSet _ _ (by norm_num) (by norm_num)
    · rename_i h2
      simp only [scaleAdd, not_lt, gt_iff_lt] at h1 h2
      simp only [ScaleInRange, scaleAdd]
      exact ⟨⟨h1, h2⟩, ⟨h1, h2⟩, ⟨h1, h2⟩⟩

theorem scaleInRange_glutMouseMotionCB (env : Env) (x y : Int) (s : State)
    (hs : ScaleInRange s) : ScaleInRange (glutMouseMotionCB env x y s) := by
  have h1 : ScaleInRange
      (if s._MouseButtonPressed then
        { invoke s._AppMouseMotionFunctionCB
            (fun f => Call.mouseMotion f s._OldMouseX s._OldMouseY x y) s with
          _OldMouseX := x
          _OldMouseY := y }
       else s) := by
    split
    · exact scaleInRange_congr (scale_invoke _ _ _) hs
    · exact hs
  unfold glutMouseMotionCB
  simp only []
  refine scaleInRange_congr (scale_glutPostRedisplay _) ?_
  split
  · exact scaleInRange_congr rfl h1
  · exact scaleInRange_motionScale _ _
  · exact scaleInRange_congr rfl h1
  · exact scaleInRange_congr rfl h1
  · exact scaleInRange_congr rfl h1

theorem scaleInRange_glutMouseButtonCB (env : Env) (button state x y : Int) (s : State)
    (hs : ScaleInRange s) : ScaleInRange (glutMouseButtonCB env button state x y s) := by
  have h1 : ScaleInRange { s with _OldMouseX := x, _OldMouseY := y } := hs
  unfold glutMouseButtonCB
  simp only []
  refine scaleInRange_congr (scale_glutPostRedisplay _) ?_
  split
  · split
    · exact hs
    · exact hs
  · split
    · refine scaleInRange_congr (s := s) ?_ hs
      simp only []
      split <;> split <;> simp [scale_invoke, scale_evalMode]
    · split
      · exact scaleInRange_clampUp _ h1
      · exact scaleInRange_clampDown _ h1

theorem scaleInRange_resetTransformation (s : State) :
    ScaleInRange (resetTransformation s) := by
  simp only [ScaleInRange, resetTransformation]
  norm_num

theorem scaleInRange_glutSpecialFuncCB (env : Env) (key x y : Int) (s : State)
    (hs : ScaleInRange s) : ScaleInRange (glutSpecialFuncCB env key x y s) := by
  have h1 : ScaleInRange (evalMode env.modifiers TM_INVALID s).2 := hs
  unfold glutSpecialFuncCB
  split
  · exact scaleInRange_resetTransformation s
  · simp only []
    split
    · split_ifs <;> exact h1
    · split_ifs <;> exact h1
    · split_ifs <;> exact h1
    · split_ifs
      · exact scaleInRange_clampUp _ h1
      · exact scaleInRange_clampDown _ h1
      · exact h1
    · exact h1

theorem scaleInRange_init : ScaleInRange init := by
  simp only [ScaleInRange, init]
  norm_num

theorem scaleInRange_step (s : State) (ev : Event) (hs : ScaleInRange s) :
    ScaleInRange (step s ev) := by
  cases ev with
  | button env b st x y => exact scaleInRange_glutMouseButtonCB env b st x y s hs
  | motion env x y => exact scaleInRange_glutMouseMotionCB env x y s hs
  | special env k x y => exact scaleInRange_glutSpecialFuncCB env k x y s hs

theorem scaleInRange_run (evs : List Event) (s : State) (hs : ScaleInRange s) :
    ScaleInRange (run s evs) := by
  induction evs generalizing s with
  | nil => exact hs
  | cons ev evs ih => exact ih (step s ev) (scaleInRange_step s ev hs)

/-- Claim C1.  After every sequence of controller events applied to the initial state (button
events with any button code, including the wheel codes, and any state; motion events; special-key
events, including Home; any modifier value, viewport width, clock value and coordinates), every
scale component lies in `[0.025, 5.0]`.  Every prefix of a sequence is again a sequence, so this
is the bound after each single event. -/
theorem C1_scale_within_bounds (evs : List Event) :
    (0.025 ≤ (run init evs)._Scale.e0 ∧ (run init evs)._Scale.e0 ≤ 5.0) ∧
    (0.025 ≤ (run init evs)._Scale.e1 ∧ (run init evs)._Scale.e1 ≤ 5.0) ∧
    (0.025 ≤ (run init evs)._Scale.e2 ∧ (run init evs)._Scale.e2 ≤ 5.0) :=
  scaleInRange_run evs init scaleInRange_init

/-! ## The accumulated rotation axis has length one -/

theorem orthoCols_axisAmountToMat (r : Float4) (h : UnitAxis r) :
    OrthoCols (axisAmountToMat r) := by
  have h2 := Real.cos_sq_add_sin_sq r.e3
  unfold UnitAxis at h
  dsimp only [OrthoCols, axisAmountToMat]
  refine ⟨?_, ?_, ?_, ?_, ?_, ?_⟩
  · linear_combination (r.e0^2*Real.cos r.e3^2 - 2*r.e0^2*Real.cos r.e3 + r.e0^2 + Real.sin r.e3^2) * h + (-r.e0^2 + 1) * h2
  · linear_combination (r.e0*r.e1*Real.cos r.e3^2 - 2*r.e0*r.e1*Real.cos r.e3 + r.e0*r.e1) * h + (-r.e0*r.e1) * h2
  · linear_combination (r.e0*r.e2*Real.cos r.e3^2 - 2*r.e0*r.e2*Real.cos r.e3 + r.e0*r.e2) * h + (-r.e0*r.e2) * h2
  · linear_combination (r.e1^2*Real.cos r.e3^2 - 2*r.e1^2*Real.cos r.e3 + r.e1^2 + Real.sin r.e3^2) * h + (-r.e1^2 + 1) * h2
  · linear_combination (r.e1*r.e2*Real.cos r.e3^2 - 2*r.e1*r.e2*Real.cos r.e3 + r.e1*r.e2) * h + (-r.e1*r.e2) * h2
  · linear_combination (r.e2^2*Real.cos r.e3^2 - 2*r.e2^2*Real.cos r.e3 + r.e2^2 - Real.cos r.e3^2 + 1) * h + (r.e0^2 + r.e1^2) * h2

theorem selfCofactor_axisAmountToMat (r : Float4) (h : UnitAxis r) :
    SelfCofactor (axisAmountToMat r) := by
  have h2 := Real.cos_sq_add_sin_sq r.e3
  unfold UnitAxis at h
  dsimp only [SelfCofactor, axisAmountToMat]
  refine ⟨?_, ?_, ?_, ?_, ?_, ?_, ?_, ?_, ?_⟩
  · linear_combination (-Real.cos r.e3^2 + Real.cos r.e3) * h + (r.e0^2) * h2
  · linear_combination (r.e2*Real.cos r.e3*Real.sin r.e3 - r.e2*Real.sin r.e3) * h + (r.e0*r.e1) * h2
  · linear_combination (-r.e1*Real.cos r.e3*Real.sin r.e3 + r.e1*Real.sin r.e3) * h + (r.e0*r.e2) * h2
  · linear_combination (-r.e2*Real.cos r.e3*Real.sin r.e3 + r.e2*Real.sin r.e3) * h + (r.e0*r.e1) * h2
  · linear_combination (-Real.cos r.e3^2 + Real.cos r.e3) * h + (r.e1^2) * h2
  · linear_combination (r.e0*Real.cos r.e3*Real.sin r.e3 - r.e0*Real.sin r.e3) * h + (r.e1*r.e2) * h2
  · linear_combination (r.e1*Real.cos r.e3*Real.sin r.e3 - r.e1*Real.sin r.e3) * h + (r.e0*r.e2) * h2
  · linear_combination (-r.e0*Real.cos r.e3*Real.sin r.e3 + r.e0*Real.sin r.e3) * h + (r.e1*r.e2) * h2
  · linear_combination (Real.cos r.e3 + Real.sin r.e3^2 - 1) * h + (-r.e0^2 - r.e1^2 + 1) * h2

theorem frobenius_mul (a b : Float9) (ha : OrthoCols a) (hb : OrthoCols b) :
    frobeniusSq (value_ptr ((make_mat3 a).mul (make_mat3 b))) = 3 := by
  dsimp only [OrthoCols] at ha hb
  dsimp only [frobeniusSq, value_ptr, Mat3.mul, make_mat3]
  linear_combination
    ((b.m0 * b.m0 + b.m3 * b.m3 + b.m6 * b.m6)) * ha.1 +
    (2 * (b.m0 * b.m1 + b.m3 * b.m4 + b.m6 * b.m7)) * ha.2.1 +
    (2 * (b.m0 * b.m2 + b.m3 * b.m5 + b.m6 * b.m8)) * ha.2.2.1 +
    ((b.m1 * b.m1 + b.m4 * b.m4 + b.m7 * b.m7)) * ha.2.2.2.1 +
    (2 * (b.m1 * b.m2 + b.m4 * b.m5 + b.m7 * b.m8)) * ha.2.2.2.2.1 +
    ((b.m2 * b.m2 + b.m5 * b.m5 + b.m8 * b.m8)) * ha.2.2.2.2.2 +
    hb.1 +
    hb.2.2.2.1 +
    hb.2.2.2.2.2

theorem minors_mul (a b : Float9) (ha : SelfCofactor a) (hb : SelfCofactor b) :
    principalMinors (value_ptr ((make_mat3 a).mul (make_mat3 b))) =
      trace (value_ptr ((make_mat3 a).mul (make_mat3 b))) := by
  dsimp only [SelfCofactor] at ha hb
  dsimp only [principalMinors, trace, value_ptr, Mat3.mul, make_mat3]
  linear_combination
    (b.m4 * b.m8 - b.m7 * b.m5) * ha.1 +
    a.m0 * hb.1 +
    (-(b.m3 * b.m8 - b.m6 * b.m5)) * ha.2.1 +
    a.m3 * hb.2.2.2.1 +
    (b.m3 * b.m7 - b.m6 * b.m4) * ha.2.2.1 +
    a.m6 * hb.2.2.2.2.2.2.1 +
    (-(b.m1 * b.m8 - b.m7 * b.m2)) * ha.2.2.2.1 +
    a.m1 * hb.2.1 +
    (b.m0 * b.m8 - b.m6 * b.m2) * ha.2.2.2.2.1 +
    a.m4 * hb.2.2.2.2.1 +
    (-(b.m0 * b.m7 - b.m6 * b.m1)) * ha.2.2.2.2.2.1 +
    a.m7 * hb.2.2.2.2.2.2.2.1 +
    (b.m1 * b.m5 - b.m4 * b.m2) * ha.2.2.2.2.2.2.1 +
    a.m2 * hb.2.2.1 +
    (-(b.m0 * b.m5 - b.m3 * b.m2)) * ha.2.2.2.2.2.2.2.1 +
    a.m5 * hb.2.2.2.2.2.1 +
    (b.m0 * b.m4 - b.m3 * b.m1) * ha.2.2.2.2.2.2.2.2 +
    a.m8 * hb.2.2.2.2.2.2.2.2

theorem skewSq_of_frobenius_minors (m : Float9) (hf : frobeniusSq m = 3)
    (hm : principalMinors m = trace m) :
    skewSq m = 4 - (trace m - 1) * (trace m - 1) := by
  dsimp only [frobeniusSq, principalMinors, trace, skewSq] at *
  linear_combination hf + 2 * hm

theorem skewSq_mul (a b : Float4) (ha : UnitAxis a) (hb : UnitAxis b) :
    skewSq (value_ptr ((make_mat3 (axisAmountToMat a)).mul (make_mat3 (axisAmountToMat b)))) =
      4 - (trace (value_ptr ((make_mat3 (axisAmountToMat a)).mul
        (make_mat3 (axisAmountToMat b)))) - 1) *
        (trace (value_ptr ((make_mat3 (axisAmountToMat a)).mul
        (make_mat3 (axisAmountToMat b)))) - 1) :=
  skewSq_of_frobenius_minors _
    (frobenius_mul _ _ (orthoCols_axisAmountToMat a ha) (orthoCols_axisAmountToMat b hb))
    (minors_mul _ _ (selfCofactor_axisAmountToMat a ha) (selfCofactor_axisAmountToMat b hb))

theorem truncToInt_zero : truncToInt 0 = 0 := by
  simp [truncToInt]

theorem skewSq_nonneg (m : Float9) : 0 ≤ skewSq m := by
  unfold skewSq
  exact add_nonneg (add_nonneg (mul_self_nonneg _) (mul_self_nonneg _)) (mul_self_nonneg _)

theorem unitAxis_matToAxisAmount (m : Float9)
    (h : skewSq m = 4 - (trace m - 1) * (trace m - 1)) : UnitAxis (matToAxisAmount m) := by
  have hc : 0 ≤ 1 - ((m.m0 + m.m4 + m.m8 - 1) / 2) ^ 2 := by
    have h0 := skewSq_nonneg m
    rw [h] at h0
    unfold trace at h0
    nlinarith
  have hs : Real.sin (Real.arccos ((m.m0 + m.m4 + m.m8 - 1) / 2)) ^ 2 =
      1 - ((m.m0 + m.m4 + m.m8 - 1) / 2) ^ 2 := by
    rw [Real.sin_arccos, Real.sq_sqrt hc]
  unfold matToAxisAmount
  simp only []
  split
  · simp [UnitAxis]
  · rename_i hcond
    have hs0 : Real.sin (Real.arccos ((m.m0 + m.m4 + m.m8 - 1) / 2)) ≠ 0 := by
      intro h0
      apply hcond
      rw [h0]
      simp only [zero_div, truncToInt_zero, Int.cast_zero, sub_zero, abs_zero]
      norm_num
    simp only [UnitAxis]
    unfold skewSq trace at h
    field_simp
    nlinarith

theorem axisLength_eq_one_iff (r : Float4) : axisLength r = 1 ↔ UnitAxis r := by
  unfold axisLength UnitAxis
  exact Real.sqrt_eq_one

theorem dragDist_mul_self (dx dy : Int) :
    dragDist dx dy * dragDist dx dy = (dx : ℝ) * dx + (dy : ℝ) * dy := by
  unfold dragDist
  rw [Real.mul_self_sqrt]
  · push_cast
    ring
  · exact_mod_cast add_nonneg (mul_self_nonneg dx) (mul_self_nonneg dy)

theorem dragDist_nonneg (dx dy : Int) : 0 ≤ dragDist dx dy :=
  Real.sqrt_nonneg _

theorem unitAxis_newRot (w dx dy : Int) (h : ¬ |dragDist dx dy| < 0.99) :
    UnitAxis (newRot w dx dy) := by
  have hd : dragDist dx dy ≠ 0 := by
    intro h0
    apply h
    rw [h0]
    norm_num
  have h2 := dragDist_mul_self dx dy
  simp only [UnitAxis, newRot]
  field_simp
  linarith

theorem unitAxis_composedRotation (w dx dy : Int) (r : Float4) (hr : UnitAxis r)
    (h : ¬ |dragDist dx dy| < 0.99) : UnitAxis (composedRotation w dx dy r) :=
  unitAxis_matToAxisAmount _ (skewSq_mul r (newRot w dx dy) hr (unitAxis_newRot w dx dy h))

theorem unitAxis_rotateTrackball (w dx dy : Int) (r : Float4) (hr : UnitAxis r) :
    UnitAxis (rotateTrackball w dx dy r) := by
  unfold rotateTrackball
  split
  · exact hr
  · rename_i h
    have hu := unitAxis_composedRotation w dx dy r hr h
    have hl := (axisLength_eq_one_iff _).mpr hu
    simp only [hl, div_one]
    exact hu

theorem unitAxis_apply (r : Float4) (op : RotOp) (hr : UnitAxis r) :
    UnitAxis (RotOp.apply r op) := by
  cases op with
  | rotate w dx dy => exact unitAxis_rotateTrackball w dx dy r hr
  | reset => simp [RotOp.apply, resetTransformation, UnitAxis]

theorem unitAxis_foldl (ops : List RotOp) (r : Float4) (hr : UnitAxis r) :
    UnitAxis (ops.foldl RotOp.apply r) := by
  induction ops generalizing r with
  | nil => exact hr
  | cons op ops ih => exact ih _ (unitAxis_apply r op hr)

theorem unitAxis_rotationAfter (ops : List RotOp) : UnitAxis (rotationAfter ops) :=
  unitAxis_foldl ops _ (by simp [init, UnitAxis])

/-- Without rounding the accumulated axis keeps length one.  Start from the initial rotation (axis
`(0,0,1)`, angle `0`) and apply any sequence of rotation updates: calls of `rotateTrackball` with
any integer deltas and a positive viewport width, and resets.  In exact real arithmetic the
accumulated axis then has Euclidean length exactly one; it is not the zero vector; and in a
further call of `rotateTrackball` that gets past the dead zone the length by which the axis is
divided is not zero.  This says nothing about the rounded computation of the program, in which
the argument of `acos` can leave `[-1, 1]` (see `matToAxisAmountChecked`). -/
theorem rotation_axis_unit_exact (ops : List RotOp) (_hw : ∀ op ∈ ops, op.WidthPositive) :
    axisLength (rotationAfter ops) = 1 ∧
    ¬ ((rotationAfter ops).e0 = 0 ∧ (rotationAfter ops).e1 = 0 ∧ (rotationAfter ops).e2 = 0) ∧
    ∀ w dx dy : Int, 0 < w → ¬ |dragDist dx dy| < 0.99 →
      axisLength (composedRotation w dx dy (rotationAfter ops)) ≠ 0 := by
  have hu := unitAxis_rotationAfter ops
  refine ⟨(axisLength_eq_one_iff _).mpr hu, ?_, ?_⟩
  · rintro ⟨h0, h1, h2⟩
    unfold UnitAxis at hu
    rw [h0, h1, h2] at hu
    norm_num at hu
  · intro w dx dy _ hd
    rw [(axisLength_eq_one_iff _).mpr (unitAxis_composedRotation w dx dy _ hu hd)]
    exact one_ne_zero

/-- An instance of `rotation_axis_unit_exact`: a drag to the right, a reset and an arrow-key step
in a 640 pixel wide viewport. -/
theorem rotation_axis_unit_exact_example :
    (∀ op ∈ [RotOp.rotate 640 10 0, RotOp.reset, RotOp.rotate 640 0 (-10)], op.WidthPositive) ∧
    axisLength (rotationAfter [RotOp.rotate 640 10 0, RotOp.reset, RotOp.rotate 640 0 (-10)])
      = 1 :=
  ⟨by simp [RotOp.WidthPositive],
   (rotation_axis_unit_exact [RotOp.rotate 640 10 0, RotOp.reset, RotOp.rotate 640 0 (-10)]
      (by simp [RotOp.WidthPositive])).1⟩

/-! ## Transform assembly -/

/-- Claim C3.  For every controller state whose offset is `(0,0,0)`, `resetTransformation`
followed by `getTransformation` returns the 4x4 identity matrix. -/
theorem C3_reset_then_get_is_identity (s : State) (ho : s._Offset = ⟨0, 0, 0⟩) :
    (getTransformation (resetTransformation s)).1 = mat4Identity := by
  simp [getTransformation, transformation, resetTransformation, ho, glmTranslate, glmRotate,
    glmScale, glmNormalize, mat4Identity, Float4.smul, Float4.add]

/-- Witness for C3: the initial state has offset `(0,0,0)`. -/
theorem C3_reset_then_get_is_identity_witness :
    init._Offset = ⟨0, 0, 0⟩ ∧ (getTransformation (resetTransformation init)).1 = mat4Identity :=
  ⟨rfl, C3_reset_then_get_is_identity init rfl⟩

theorem glmNormalize_unit (r : Float4) (h : UnitAxis r) :
    glmNormalize ⟨r.e0, r.e1, r.e2⟩ = ⟨r.e0, r.e1, r.e2⟩ := by
  unfold UnitAxis at h
  simp [glmNormalize, h]

theorem transformation_eq_product (s : State) (k : ℝ) (hax : UnitAxis s._Rotation)
    (hsc : s._Scale = ⟨k, k, k⟩) :
    transformation s =
      ((((matT s._Offset).mul (matT s._Translation)).mul
        (matR s._Rotation.axis s._Rotation.e3)).mul (matS k)).mul (matT s._Offset.neg) := by
  simp only [transformation, glmRotate, glmNormalize_unit _ hax, hsc, glmTranslate, glmScale,
    mat4Identity, Float4.smul, Float4.add, Mat4.mul, Mat4.mulVec, matT, matR, matS, rodrigues,
    Float3.add, Float3.scaleBy, Float3.cross, Float3.dot, Float3.dir, Float3.neg, Float4.axis]
  ext <;> ring

theorem transformPoint_transformation (s : State) (k : ℝ) (p : Float3)
    (hax : UnitAxis s._Rotation) (hsc : s._Scale = ⟨k, k, k⟩) :
    transformPoint (transformation s) p =
      (s._Offset.add s._Translation).add
        (rodrigues s._Rotation.axis s._Rotation.e3 (Float3.scaleBy k (p.sub s._Offset))) := by
  simp only [transformation, glmRotate, glmNormalize_unit _ hax, hsc, glmTranslate, glmScale,
    mat4Identity, Float4.smul, Float4.add, transformPoint, Mat4.mulVec, rodrigues,
    Float3.add, Float3.sub, Float3.scaleBy, Float3.cross, Float3.dot, Float4.axis]
  ext <;> ring

theorem unitAxis_pivotExample : UnitAxis pivotExample._Rotation := by
  simp [pivotExample, init, UnitAxis]

/-- Claim C4.  For a state with offset `o`, translation `t`, unit rotation axis `a`, angle `θ` and
uniform scale `k`, the matrix returned by `getTransformation` maps every point `p` to
`o + t + R(a,θ) (k (p - o))`; it is the matrix product `T(o) T(t) R(a,θ) S(k) T(-o)`; the pivot
`o` is mapped to `o + t`; and with `o = (1,0,0)`, `k = 2`, no rotation and no translation the
point `(2,0,0)` is mapped to `(3,0,0)`. -/
theorem C4_transformation_pivot (s : State) (k : ℝ) (p : Float3)
    (hax : UnitAxis s._Rotation) (hsc : s._Scale = ⟨k, k, k⟩) :
    transformPoint (getTransformation s).1 p =
      (s._Offset.add s._Translation).add
        (rodrigues s._Rotation.axis s._Rotation.e3 (Float3.scaleBy k (p.sub s._Offset))) ∧
    (getTransformation s).1 =
      ((((matT s._Offset).mul (matT s._Translation)).mul
        (matR s._Rotation.axis s._Rotation.e3)).mul (matS k)).mul (matT s._Offset.neg) ∧
    transformPoint (getTransformation s).1 s._Offset = s._Offset.add s._Translation ∧
    transformPoint (getTransformation pivotExample).1 ⟨2, 0, 0⟩ = ⟨3, 0, 0⟩ := by
  refine ⟨transformPoint_transformation s k p hax hsc, transformation_eq_product s k hax hsc,
    ?_, ?_⟩
  · show transformPoint (transformation s) s._Offset = _
    rw [transformPoint_transformation s k s._Offset hax hsc]
    simp [rodrigues, Float3.add, Float3.sub, Float3.scaleBy, Float3.cross, Float3.dot]
  · show transformPoint (transformation pivotExample) ⟨2, 0, 0⟩ = _
    rw [transformPoint_transformation pivotExample 2 ⟨2, 0, 0⟩ unitAxis_pivotExample rfl]
    simp [pivotExample, init, rodrigues, Float3.add, Float3.sub, Float3.scaleBy, Float3.cross,
      Float3.dot, Float4.axis]
    norm_num

/-- Witness for C4: the pivot example itself (unit axis `(0,0,1)`, uniform scale `2`) at the point
`(2,0,0)`. -/
theorem C4_transformation_pivot_witness :
    UnitAxis pivotExample._Rotation ∧ pivotExample._Scale = ⟨2, 2, 2⟩ ∧
    transformPoint (getTransformation pivotExample).1 ⟨2, 0, 0⟩ = ⟨3, 0, 0⟩ :=
  ⟨unitAxis_pivotExample, rfl,
   (C4_transformation_pivot pivotExample 2 ⟨2, 0, 0⟩ unitAxis_pivotExample rfl).2.2.2⟩

/-! ## Dead zone of the rotation composer -/

theorem dragDist_lt_iff (dx dy : Int) : dragDist dx dy < 0.99 ↔ dx = 0 ∧ dy = 0 := by
  constructor
  · intro h
    have h0 := dragDist_nonneg dx dy
    have h2 := dragDist_mul_self dx dy
    have h3 : (dx : ℝ) * dx + (dy : ℝ) * dy < 1 := by
      rw [← h2]
      nlinarith
    have h4 : dx * dx + dy * dy < 1 := by exact_mod_cast h3
    have h5 := mul_self_nonneg dx
    have h6 := mul_self_nonneg dy
    have h7 : dx * dx = 0 := by omega
    have h8 : dy * dy = 0 := by omega
    exact ⟨mul_self_eq_zero.mp h7, mul_self_eq_zero.mp h8⟩
  · rintro ⟨rfl, rfl⟩
    simp [dragDist]
    norm_num

/-- Claim C5.  If the magnitude `sqrt(dx² + dy²)` of an integer delta is below `0.99`, then
`rotateTrackball` returns with axis and angle unchanged, for every rotation state and every
viewport width; such a delta is the delta `(0,0)`, and the delta `(0,0)` always leaves the
rotation unchanged. -/
theorem C5_dead_zone_is_noop (w dx dy : Int) (r : Float4) (h : dragDist dx dy < 0.99) :
    rotateTrackball w dx dy r = r ∧ (dx = 0 ∧ dy = 0) ∧
    ∀ (w' : Int) (r' : Float4), rotateTrackball w' 0 0 r' = r' := by
  have key : ∀ (w' x y : Int) (r' : Float4), dragDist x y < 0.99 →
      rotateTrackball w' x y r' = r' := by
    intro w' x y r' hxy
    unfold rotateTrackball
    rw [if_pos]
    rw [abs_of_nonneg (dragDist_nonneg x y)]
    exact hxy
  exact ⟨key w dx dy r h, (dragDist_lt_iff dx dy).mp h,
    fun w' r' => key w' 0 0 r' ((dragDist_lt_iff 0 0).mpr ⟨rfl, rfl⟩)⟩

/-- Witness for C5: the delta `(0,0)` in a 640 pixel wide viewport on the initial rotation. -/
theorem C5_dead_zone_is_noop_witness :
    dragDist 0 0 < 0.99 ∧ rotateTrackball 640 0 0 init._Rotation = init._Rotation :=
  ⟨(dragDist_lt_iff 0 0).mpr ⟨rfl, rfl⟩,
   (C5_dead_zone_is_noop 640 0 0 init._Rotation ((dragDist_lt_iff 0 0).mpr ⟨rfl, rfl⟩)).1⟩

/-! ## Mode evaluator -/

/-- Claim C6.  Keyboard path, previous-modifier snapshot `k` in {Shift, Ctrl, Alt}, no modifier
seen now: the returned (and stored) mode is `TM_ROTATE` if the current mode is the one associated
with `k` (Shift: `TM_TRANSLATEZ`, Ctrl: `TM_TRANSLATEXY`, Alt: `TM_SCALE`) and the unchanged
current mode otherwise.  In particular press-Ctrl then release-Ctrl ends in `TM_ROTATE`, and
press-Ctrl, override to `TM_TRANSLATEZ`, release-Ctrl ends in `TM_TRANSLATEZ`. -/
theorem C6_release_reverts_matching_mode (cur : TrackballModeT) :
    (evaluateTrackballMode 0 TM_INVALID ⟨cur, GLUT_ACTIVE_SHIFT⟩ =
      (if cur = TM_TRANSLATEZ then TM_ROTATE else cur,
       ⟨if cur = TM_TRANSLATEZ then TM_ROTATE else cur, 0⟩)) ∧
    (evaluateTrackballMode 0 TM_INVALID ⟨cur, GLUT_ACTIVE_CTRL⟩ =
      (if cur = TM_TRANSLATEXY then TM_ROTATE else cur,
       ⟨if cur = TM_TRANSLATEXY then TM_ROTATE else cur, 0⟩)) ∧
    (evaluateTrackballMode 0 TM_INVALID ⟨cur, GLUT_ACTIVE_ALT⟩ =
      (if cur = TM_SCALE then TM_ROTATE else cur,
       ⟨if cur = TM_SCALE then TM_ROTATE else cur, 0⟩)) ∧
    (evaluateTrackballMode 0 TM_INVALID
      (evaluateTrackballMode GLUT_ACTIVE_CTRL TM_INVALID ⟨cur, 0⟩).2).1 = TM_ROTATE ∧
    ∀ m : Int, (evaluateTrackballMode 0 TM_INVALID
      (evaluateTrackballMode m TM_TRANSLATEZ
        (evaluateTrackballMode GLUT_ACTIVE_CTRL TM_INVALID ⟨cur, 0⟩).2).2).1 = TM_TRANSLATEZ := by
  refine ⟨?_, ?_, ?_, ?_, ?_⟩
  · cases cur <;> decide
  · cases cur <;> decide
  · cases cur <;> decide
  · cases cur <;> decide
  · intro m
    cases cur <;> rfl

/-- Claim C7.  Keyboard path, previous-modifier snapshot 'none' (`0`), modifier value `k ≠ 0`
seen now: the mode becomes `TM_TRANSLATEZ` for Shift, `TM_TRANSLATEXY` for Ctrl, `TM_SCALE` for
Alt, whatever it was before, and stays as it was for every other value of `k`; the snapshot
becomes `k` in every case. -/
theorem C7_press_selects_mode (k : Int) (cur : TrackballModeT) (hk : k ≠ 0) :
    evaluateTrackballMode k TM_INVALID ⟨cur, 0⟩ =
      (if k = GLUT_ACTIVE_SHIFT then TM_TRANSLATEZ
       else if k = GLUT_ACTIVE_CTRL then TM_TRANSLATEXY
       else if k = GLUT_ACTIVE_ALT then TM_SCALE
       else cur,
       ⟨if k = GLUT_ACTIVE_SHIFT then TM_TRANSLATEZ
        else if k = GLUT_ACTIVE_CTRL then TM_TRANSLATEXY
        else if k = GLUT_ACTIVE_ALT then TM_SCALE
        else cur, k⟩) := by
  have h0 : (0 : Int) ≠ k := fun h => hk h.symm
  by_cases hpos : k > 0
  · simp only [evaluateTrackballMode, ne_eq, not_true_eq_false, if_false, h0, not_false_eq_true,
      if_true, hpos]
  · have h1 : k ≠ GLUT_ACTIVE_SHIFT := by
      intro h
      rw [h] at hpos
      exact hpos (by decide)
    have h2 : k ≠ GLUT_ACTIVE_CTRL := by
      intro h
      rw [h] at hpos
      exact hpos (by decide)
    have h3 : k ≠ GLUT_ACTIVE_ALT := by
      intro h
      rw [h] at hpos
      exact hpos (by decide)
    have e1 : (0 : Int) ≠ GLUT_ACTIVE_SHIFT := by decide
    have e2 : (0 : Int) ≠ GLUT_ACTIVE_CTRL := by decide
    have e3 : (0 : Int) ≠ GLUT_ACTIVE_ALT := by decide
    simp only [evaluateTrackballMode, ne_eq, not_true_eq_false, if_false, h0, not_false_eq_true,
      if_true, hpos, h1, h2, h3, e1, e2, e3]

/-- Witness for C7: Shift and Ctrl held together while the mode is `TM_SCALE`. -/
theorem C7_press_selects_mode_witness :
    (GLUT_ACTIVE_SHIFT + GLUT_ACTIVE_CTRL ≠ 0) ∧
    evaluateTrackballMode (GLUT_ACTIVE_SHIFT + GLUT_ACTIVE_CTRL) TM_INVALID ⟨TM_SCALE, 0⟩ =
      (TM_SCALE, ⟨TM_SCALE, GLUT_ACTIVE_SHIFT + GLUT_ACTIVE_CTRL⟩) :=
  ⟨by decide,
   (C7_press_selects_mode (GLUT_ACTIVE_SHIFT + GLUT_ACTIVE_CTRL) TM_SCALE (by decide)).trans
     (by decide)⟩

/-- Claim C8.  For every explicit mode `m` (any of the four modes, i.e. not `TM_INVALID`), every
evaluator state and every modifier value, `evaluateTrackballMode(m)` returns `m`, stores `m` as
the current mode and leaves the previous-modifier snapshot as it was.  Hence right after a
middle-button press the mode is `TM_TRANSLATEZ` and right after a middle-button release it is
`TM_ROTATE`, and the snapshot is untouched by both. -/
theorem C8_override_sets_mode (mods : Int) (m : TrackballModeT) (e : EvalStatics)
    (hm : m ≠ TM_INVALID) :
    evaluateTrackballMode mods m e = (m, ⟨m, e.key_modifier_prev⟩) ∧
    (∀ (env : Env) (st x y : Int) (s : State), st ≠ GLUT_UP →
      (glutMouseButtonCB env GLUT_MIDDLE_BUTTON st x y s).eval =
        ⟨TM_TRANSLATEZ, s.eval.key_modifier_prev⟩) ∧
    (∀ (env : Env) (x y : Int) (s : State),
      (glutMouseButtonCB env GLUT_MIDDLE_BUTTON GLUT_UP x y s).eval =
        ⟨TM_ROTATE, s.eval.key_modifier_prev⟩) := by
  refine ⟨?_, ?_, ?_⟩
  · simp only [evaluateTrackballMode, ne_eq, hm, not_false_eq_true, if_true]
  · intro env st x y s hst
    have hinv : ∀ (slot : Option Nat) (c : Nat → Call) (t : State),
        (invoke slot c t).eval = t.eval := by
      intro slot c t
      cases slot <;> rfl
    unfold glutMouseButtonCB
    simp only [hst, if_false, GLUT_MIDDLE_BUTTON, GLUT_LEFT_BUTTON, GLUT_RIGHT_BUTTON, or_true,
      true_or, if_true, glutPostRedisplay, evalMode]
    split <;> simp [evaluateTrackballMode, hinv]
  · intro env x y s
    simp [glutMouseButtonCB, glutPostRedisplay, evalMode, evaluateTrackballMode]

/-- Witness for C8: forcing `TM_TRANSLATEZ` while Ctrl is held and the mode is `TM_TRANSLATEXY`. -/
theorem C8_override_sets_mode_witness :
    TM_TRANSLATEZ ≠ TM_INVALID ∧
    evaluateTrackballMode GLUT_ACTIVE_CTRL TM_TRANSLATEZ ⟨TM_TRANSLATEXY, GLUT_ACTIVE_CTRL⟩ =
      (TM_TRANSLATEZ, ⟨TM_TRANSLATEZ, GLUT_ACTIVE_CTRL⟩) :=
  ⟨by decide,
   (C8_override_sets_mode GLUT_ACTIVE_CTRL TM_TRANSLATEZ ⟨TM_TRANSLATEXY, GLUT_ACTIVE_CTRL⟩
      (by decide)).1⟩

/-! ## Double-click detection -/

theorem press_doubleClicks (env : Env) (b x y : Int) (s : State)
    (hb : b = GLUT_LEFT_BUTTON ∨ b = GLUT_MIDDLE_BUTTON ∨ b = GLUT_RIGHT_BUTTON) :
    doubleClicks (glutMouseButtonCB env b GLUT_DOWN x y s) =
      doubleClicks s +
        (if env.clock - s.dblclick_start < 400 ∧ s._AppDoubleClickFunctionCB ≠ none
          then 1 else 0) ∧
    (glutMouseButtonCB env b GLUT_DOWN x y s).dblclick_start = env.clock ∧
    (glutMouseButtonCB env b GLUT_DOWN x y s)._AppDoubleClickFunctionCB =
      s._AppDoubleClickFunctionCB := by
  have hdown : GLUT_DOWN ≠ GLUT_UP := by decide
  unfold glutMouseButtonCB
  simp only [hdown, if_false, hb, if_true]
  cases hd : s._AppDoubleClickFunctionCB <;> cases hm : s._AppMouseButtonFunctionCB <;>
    by_cases hmid : b = GLUT_MIDDLE_BUTTON <;>
    by_cases ht : env.clock - s.dblclick_start < 400 <;>
    simp [hd, hm, hmid, ht, invoke, evalMode, glutPostRedisplay, doubleClicks,
      Call.isDoubleClick, List.filter_append]

theorem doubleClicks_afterTwoPresses (f : Nat) (e1 e2 : Env) (b1 b2 x y : Int)
    (hb1 : b1 = GLUT_LEFT_BUTTON ∨ b1 = GLUT_MIDDLE_BUTTON ∨ b1 = GLUT_RIGHT_BUTTON)
    (hb2 : b2 = GLUT_LEFT_BUTTON ∨ b2 = GLUT_MIDDLE_BUTTON ∨ b2 = GLUT_RIGHT_BUTTON) :
    doubleClicks (afterTwoPresses f e1 e2 b1 b2 x y) =
      (if e1.clock < 400 then 1 else 0) + (if e2.clock - e1.clock < 400 then 1 else 0) := by
  unfold afterTwoPresses
  obtain ⟨h1, h2, h3⟩ := press_doubleClicks e1 b1 x y (registerDoubleClick (some f) init) hb1
  obtain ⟨k1, -, -⟩ := press_doubleClicks e2 b2 x y _ hb2
  rw [k1, h1, h2, h3]
  simp [registerDoubleClick, init, doubleClicks]

/-- Claim C9, the code at the failing inputs.  With a double-click callback registered on the
initial state, two presses of the left button at the clock values `0` and `100` invoke the
callback twice, and two presses at the clock values `100` and `600` (500 apart) invoke it once:
the first press is compared with the initial value `0` of `dblclick_start`. -/
theorem C9_first_press_counts_as_double_click :
    doubleClicks (afterTwoPresses 7 ⟨0, 640, 0⟩ ⟨0, 640, 100⟩ GLUT_LEFT_BUTTON GLUT_LEFT_BUTTON
      5 5) = 2 ∧
    doubleClicks (afterTwoPresses 7 ⟨0, 640, 100⟩ ⟨0, 640, 600⟩ GLUT_LEFT_BUTTON GLUT_LEFT_BUTTON
      5 5) = 1 := by
  constructor
  · rw [doubleClicks_afterTwoPresses _ _ _ _ _ _ _ (Or.inl rfl) (Or.inl rfl)]
    norm_num
  · rw [doubleClicks_afterTwoPresses _ _ _ _ _ _ _ (Or.inl rfl) (Or.inl rfl)]
    norm_num

/-! ## Pivot offset accessors -/

theorem getOffset_buffer (s : State) (buf : Float3) : (getOffset s buf).1 = buf := rfl

/-- Claim C10, the code at the failing input.  After `setOffset` with `(1,2,3)` the stored offset
is `(1,2,3)`, but `getOffset` called with a buffer holding `(0,0,0)` leaves the buffer at
`(0,0,0)`: the buffer does not hold the offset. -/
theorem C10_getOffset_leaves_buffer :
    (setOffset ⟨1, 2, 3⟩ init)._Offset = ⟨1, 2, 3⟩ ∧
    (getOffset (setOffset ⟨1, 2, 3⟩ init) ⟨0, 0, 0⟩).1 = ⟨0, 0, 0⟩ ∧
    (getOffset (setOffset ⟨1, 2, 3⟩ init) ⟨0, 0, 0⟩).1 ≠ (setOffset ⟨1, 2, 3⟩ init)._Offset := by
  refine ⟨rfl, rfl, ?_⟩
  intro h
  have h0 := congrArg Float3.e0 h
  simp [getOffset, setOffset] at h0

/-! ## Reset -/

/-- Claim C11.  For every controller state, `resetTransformation` and the Home special key set
the translation to `(0,0,0)`, the rotation to the axis `(0,0,1)` with angle `0`, every scale
component to `1` and the last pointer position to `(0,0)`, and leave the offset, the button-down
flag, the current mode, the previous-modifier snapshot and the three callback slots as they
were. -/
theorem C11_reset_frame (env : Env) (x y : Int) (s : State) :
    (resetTransformation s =
      { s with
        _Translation := ⟨0, 0, 0⟩
        _Rotation := ⟨0, 0, 1, 0⟩
        _Scale := ⟨1, 1, 1⟩
        _OldMouseX := 0
        _OldMouseY := 0 }) ∧
    ((glutSpecialFuncCB env GLUT_KEY_HOME x y s)._Translation = ⟨0, 0, 0⟩ ∧
     (glutSpecialFuncCB env GLUT_KEY_HOME x y s)._Rotation = ⟨0, 0, 1, 0⟩ ∧
     (glutSpecialFuncCB env GLUT_KEY_HOME x y s)._Scale = ⟨1, 1, 1⟩ ∧
     (glutSpecialFuncCB env GLUT_KEY_HOME x y s)._OldMouseX = 0 ∧
     (glutSpecialFuncCB env GLUT_KEY_HOME x y s)._OldMouseY = 0) ∧
    ((glutSpecialFuncCB env GLUT_KEY_HOME x y s)._Offset = s._Offset ∧
     (glutSpecialFuncCB env GLUT_KEY_HOME x y s)._MouseButtonPressed = s._MouseButtonPressed ∧
     (glutSpecialFuncCB env GLUT_KEY_HOME x y s).eval.mode = s.eval.mode ∧
     (glutSpecialFuncCB env GLUT_KEY_HOME x y s).eval.key_modifier_prev =
       s.eval.key_modifier_prev ∧
     (glutSpecialFuncCB env GLUT_KEY_HOME x y s)._AppDoubleClickFunctionCB =
       s._AppDoubleClickFunctionCB ∧
     (glutSpecialFuncCB env GLUT_KEY_HOME x y s)._AppMouseButtonFunctionCB =
       s._AppMouseButtonFunctionCB ∧
     (glutSpecialFuncCB env GLUT_KEY_HOME x y s)._AppMouseMotionFunctionCB =
       s._AppMouseMotionFunctionCB) := by
  have h : glutSpecialFuncCB env GLUT_KEY_HOME x y s =
      glutPostRedisplay (resetTransformation s) := by
    unfold glutSpecialFuncCB
    rw [if_pos rfl]
  rw [h]
  exact ⟨rfl, ⟨rfl, rfl, rfl, rfl, rfl⟩, ⟨rfl, rfl, rfl, rfl, rfl, rfl, rfl⟩⟩

/-! ## Drag translation and wheel -/

theorem invoke_frame (slot : Option Nat) (c : Nat → Call) (s : State) :
    (invoke slot c s)._Translation = s._Translation ∧
    (invoke slot c s)._Rotation = s._Rotation ∧
    (invoke slot c s)._Scale = s._Scale ∧
    (invoke slot c s)._Offset = s._Offset ∧
    (invoke slot c s).eval = s.eval ∧
    (invoke slot c s)._MouseButtonPressed = s._MouseButtonPressed ∧
    (invoke slot c s)._OldMouseX = s._OldMouseX ∧
    (invoke slot c s)._OldMouseY = s._OldMouseY := by
  cases slot <;> exact ⟨rfl, rfl, rfl, rfl, rfl, rfl, rfl, rfl⟩

/-- Claim C13.  With the button-down flag set and last pointer position `(x0, y0)`, a motion event
at `(x, y)`, `dx = x - x0`, `dy = y - y0`: if the evaluated mode is `TM_TRANSLATEXY`, the
translation becomes `(t.x + dx/100, t.y - dy/100, t.z)`; if it is `TM_TRANSLATEZ`, it becomes
`(t.x, t.y, t.z + dy/40)`; in both cases rotation, scale and offset are unchanged and the last
pointer position becomes `(x, y)`. -/
theorem C13_drag_translates (env : Env) (x y : Int) (s : State)
    (hp : s._MouseButtonPressed = true) :
    ((evaluateTrackballMode env.modifiers TM_INVALID s.eval).1 = TM_TRANSLATEXY →
      (glutMouseMotionCB env x y s)._Translation =
        ⟨s._Translation.e0 + ((x - s._OldMouseX : Int) : ℝ) / 100,
         s._Translation.e1 - ((y - s._OldMouseY : Int) : ℝ) / 100,
         s._Translation.e2⟩ ∧
      (glutMouseMotionCB env x y s)._Rotation = s._Rotation ∧
      (glutMouseMotionCB env x y s)._Scale = s._Scale ∧
      (glutMouseMotionCB env x y s)._Offset = s._Offset ∧
      (glutMouseMotionCB env x y s)._OldMouseX = x ∧
      (glutMouseMotionCB env x y s)._OldMouseY = y) ∧
    ((evaluateTrackballMode env.modifiers TM_INVALID s.eval).1 = TM_TRANSLATEZ →
      (glutMouseMotionCB env x y s)._Translation =
        ⟨s._Translation.e0, s._Translation.e1,
         s._Translation.e2 + ((y - s._OldMouseY : Int) : ℝ) / 40⟩ ∧
      (glutMouseMotionCB env x y s)._Rotation = s._Rotation ∧
      (glutMouseMotionCB env x y s)._Scale = s._Scale ∧
      (glutMouseMotionCB env x y s)._Offset = s._Offset ∧
      (glutMouseMotionCB env x y s)._OldMouseX = x ∧
      (glutMouseMotionCB env x y s)._OldMouseY = y) := by
  constructor
  · intro hm
    unfold glutMouseMotionCB
    simp only [hp, if_true, evalMode, invoke_frame, hm, glutPostRedisplay]
    norm_num
  · intro hm
    unfold glutMouseMotionCB
    simp only [hp, if_true, evalMode, invoke_frame, hm, glutPostRedisplay]
    norm_num

/-- Witness for C13: Ctrl held, button down at `(0,0)`, pointer moved to `(30,20)`. -/
theorem C13_drag_translates_witness :
    ({ init with _MouseButtonPressed := true } : State)._MouseButtonPressed = true ∧
    (glutMouseMotionCB ⟨GLUT_ACTIVE_CTRL, 640, 0⟩ 30 20
      { init with _MouseButtonPressed := true })._Translation =
      ⟨(0 : ℝ) + ((30 - 0 : Int) : ℝ) / 100, (0 : ℝ) - ((20 - 0 : Int) : ℝ) / 100, 0⟩ :=
  ⟨rfl, ((C13_drag_translates ⟨GLUT_ACTIVE_CTRL, 640, 0⟩ 30 20
      { init with _MouseButtonPressed := true } rfl).1 (by decide)).1⟩

/-- Claim C15.  A press event (state other than `GLUT_UP`) whose button code is outside `0..2`, on
a state with uniform scale `k`, in any mode: the scale becomes `min (k + 0.05) 5.0` in all three
components when the code is `3` and `max (k - 0.05) 0.025` for every other code; translation,
rotation, the button-down flag, the mode and the modifier snapshot, and the double-click
timestamps stay as they were, and no callback is invoked.  This holds for every `k`, in
particular for `k` in `[0.025, 5.0]`. -/
theorem C15_wheel_nudges_scale (env : Env) (b st x y : Int) (s : State) (k : ℝ)
    (hst : st ≠ GLUT_UP) (hb : b ≠ 0 ∧ b ≠ 1 ∧ b ≠ 2)
    (hs : s._Scale = ⟨k, k, k⟩) :
    (glutMouseButtonCB env b st x y s)._Scale =
      (if b = 3 then ⟨min (k + 0.05) 5.0, min (k + 0.05) 5.0, min (k + 0.05) 5.0⟩
       else ⟨max (k - 0.05) 0.025, max (k - 0.05) 0.025, max (k - 0.05) 0.025⟩) ∧
    (glutMouseButtonCB env b st x y s)._Translation = s._Translation ∧
    (glutMouseButtonCB env b st x y s)._Rotation = s._Rotation ∧
    (glutMouseButtonCB env b st x y s)._MouseButtonPressed = s._MouseButtonPressed ∧
    (glutMouseButtonCB env b st x y s).eval = s.eval ∧
    (glutMouseButtonCB env b st x y s).dblclick_start = s.dblclick_start ∧
    (glutMouseButtonCB env b st x y s).dblclick_finish = s.dblclick_finish ∧
    (glutMouseButtonCB env b st x y s).calls = s.calls := by
  obtain ⟨hb0, hb1, hb2⟩ := hb
  have hbut : ¬ (b = GLUT_LEFT_BUTTON ∨ b = GLUT_MIDDLE_BUTTON ∨ b = GLUT_RIGHT_BUTTON) := by
    simp only [GLUT_LEFT_BUTTON, GLUT_MIDDLE_BUTTON, GLUT_RIGHT_BUTTON]
    tauto
  have h3 : (b = GLUT_RIGHT_BUTTON + 1) = (b = 3) := by
    simp [GLUT_RIGHT_BUTTON]
  unfold glutMouseButtonCB
  simp only [hst, if_false, hbut, h3]
  by_cases hw : b = 3
  · simp only [hw, if_true, glutPostRedisplay, clampUp, scaleAdd, scaleSet, hs]
    by_cases hc : k + 0.05 > 5.0
    · rw [if_pos hc, min_eq_right (le_of_lt hc)]
      exact ⟨rfl, rfl, rfl, rfl, rfl, rfl, rfl, rfl⟩
    · rw [if_neg hc, min_eq_left (not_lt.mp hc)]
      exact ⟨rfl, rfl, rfl, rfl, rfl, rfl, rfl, rfl⟩
  · simp only [hw, if_false, glutPostRedisplay, clampDown, scaleAdd, scaleSet, hs]
    have e : k + -0.05 = k - 0.05 := by ring
    rw [e]
    by_cases hc : k - 0.05 < 0.025
    · rw [if_pos hc, max_eq_right (le_of_lt hc)]
      exact ⟨rfl, rfl, rfl, rfl, rfl, rfl, rfl, rfl⟩
    · rw [if_neg hc, max_eq_left (not_lt.mp hc)]
      exact ⟨rfl, rfl, rfl, rfl, rfl, rfl, rfl, rfl⟩

/-- Witness for C15: one wheel-up event (code `3`, state `GLUT_DOWN`) on the initial state. -/
theorem C15_wheel_nudges_scale_witness :
    ((0 : Int) ≠ GLUT_UP) ∧ ((3 : Int) ≠ 0 ∧ (3 : Int) ≠ 1 ∧ (3 : Int) ≠ 2) ∧
    init._Scale = ⟨1, 1, 1⟩ ∧
    (glutMouseButtonCB ⟨0, 640, 0⟩ 3 0 5 5 init)._Scale =
      ⟨min (1 + 0.05) 5.0, min (1 + 0.05) 5.0, min (1 + 0.05) 5.0⟩ :=
  ⟨by decide, by decide, rfl,
   (C15_wheel_nudges_scale ⟨0, 640, 0⟩ 3 0 5 5 init 1 (by decide) (by decide) rfl).1.trans
      (if_pos rfl)⟩

/-! ## Scale is uniform -/

theorem scaleUniform_congr {s t : State} (h : t._Scale = s._Scale) (hs : ScaleUniform s) :
    ScaleUniform t := by
  unfold ScaleUniform at *
  rw [h]
  exact hs

theorem scaleUniform_scaleSet (v : ℝ) (s : State) : ScaleUniform (scaleSet v s) :=
  ⟨rfl, rfl⟩

theorem scaleUniform_scaleAdd (d : ℝ) (s : State) : ScaleUniform (scaleAdd d s) :=
  ⟨rfl, rfl⟩

theorem scaleUniform_clampUp (s : State) (hs : ScaleUniform s) : ScaleUniform (clampUp s) := by
  unfold clampUp
  split
  · exact scaleUniform_scaleSet _ _
  · exact hs

theorem scaleUniform_clampDown (s : State) (hs : ScaleUniform s) :
    ScaleUniform (clampDown s) := by
  unfold clampDown
  split
  · exact scaleUniform_scaleSet _ _
  · exact hs

theorem scaleUniform_motionScale (d : ℝ) (s : State) :
    ScaleUniform
      (if (scaleAdd d s)._Scale.e0 < 0.025 then scaleSet 0.025 (scaleAdd d s)
       else if (scaleAdd d s)._Scale.e0 > 5.0 then scaleSet 5.0 (scaleAdd d s)
       else scaleAdd d s) := by
  split
  · exact scaleUniform_scaleSet _ _
  · split
    · exact scaleUniform_scaleSet _ _
    · exact scaleUniform_scaleAdd _ _

theorem scaleUniform_glutMouseMotionCB (env : Env) (x y : Int) (s : State)
    (hs : ScaleUniform s) : ScaleUniform (glutMouseMotionCB env x y s) := by
  have h1 : ScaleUniform
      (if s._MouseButtonPressed then
        { invoke s._AppMouseMotionFunctionCB
            (fun f => Call.mouseMotion f s._OldMouseX s._OldMouseY x y) s with
          _OldMouseX := x
          _OldMouseY := y }
       else s) := by
    split
    · exact scaleUniform_congr (scale_invoke _ _ _) hs
    · exact hs
  unfold glutMouseMotionCB
  simp only []
  refine scaleUniform_congr (scale_glutPostRedisplay _) ?_
  split
  · exact scaleUniform_congr rfl h1
  · exact scaleUniform_motionScale _ _
  · exact scaleUniform_congr rfl h1
  · exact scaleUniform_congr rfl h1
  · exact scaleUniform_congr rfl h1

theorem scaleUniform_glutMouseButtonCB (env : Env) (button state x y : Int) (s : State)
    (hs : ScaleUniform s) : ScaleUniform (glutMouseButtonCB env button state x y s) := by
  unfold glutMouseButtonCB
  simp only []
  refine scaleUniform_congr (scale_glutPostRedisplay _) ?_
  split
  · split
    · exact hs
    · exact hs
  · split
    · refine scaleUniform_congr (s := s) ?_ hs
      simp only []
      split <;> split <;> simp [scale_invoke, scale_evalMode]
    · split
      · exact scaleUniform_clampUp _ (scaleUniform_scaleAdd _ _)
      · exact scaleUniform_clampDown _ (scaleUniform_scaleAdd _ _)

theorem scaleUniform_resetTransformation (s : State) :
    ScaleUniform (resetTransformation s) :=
  ⟨rfl, rfl⟩

theorem scaleUniform_glutSpecialFuncCB (env : Env) (key x y : Int) (s : State)
    (hs : ScaleUniform s) : ScaleUniform (glutSpecialFuncCB env key x y s) := by
  have h1 : ScaleUniform (evalMode env.modifiers TM_INVALID s).2 := hs
  unfold glutSpecialFuncCB
  split
  · exact scaleUniform_resetTransformation s
  · simp only []
    split
    · split_ifs <;> exact h1
    · split_ifs <;> exact h1
    · split_ifs <;> exact h1
    · split_ifs
      · exact scaleUniform_clampUp _ (scaleUniform_scaleAdd _ _)
      · exact scaleUniform_clampDown _ (scaleUniform_scaleAdd _ _)
      · exact h1
    · exact h1

theorem scaleUniform_step (s : State) (ev : Event) (hs : ScaleUniform s) :
    ScaleUniform (step s ev) := by
  cases ev with
  | button env b st x y => exact scaleUniform_glutMouseButtonCB env b st x y s hs
  | motion env x y => exact scaleUniform_glutMouseMotionCB env x y s hs
  | special env k x y => exact scaleUniform_glutSpecialFuncCB env k x y s hs

theorem scaleUniform_run (evs : List Event) (s : State) (hs : ScaleUniform s) :
    ScaleUniform (run s evs) := by
  induction evs generalizing s with
  | nil => exact hs
  | cons ev evs ih => exact ih (step s ev) (scaleUniform_step s ev hs)

/-- Claim C17.  After every sequence of controller events applied to the initial state the three
scale components are equal to each other (every prefix of a sequence is again a sequence, so this
holds after each single event). -/
theorem C17_scale_uniform (evs : List Event) :
    (run init evs)._Scale.e0 = (run init evs)._Scale.e1 ∧
    (run init evs)._Scale.e1 = (run init evs)._Scale.e2 :=
  scaleUniform_run evs init ⟨rfl, rfl⟩

/-! ## Motion without a pressed button -/

theorem scale_register (f : Option Nat) (s : State) :
    (registerDoubleClick f s)._Scale = s._Scale ∧
    (registerMouseButton f s)._Scale = s._Scale ∧
    (registerMouseMotion f s)._Scale = s._Scale := by
  unfold registerDoubleClick registerMouseButton registerMouseMotion
  refine ⟨?_, ?_, ?_⟩ <;> split <;> rfl

theorem scaleInRange_opApply (s : State) (op : Op) (hs : ScaleInRange s) :
    ScaleInRange (Op.apply s op) := by
  cases op with
  | event ev => exact scaleInRange_step s ev hs
  | setOffset o => exact hs
  | getOffset b => exact hs
  | registerDoubleClick f => exact scaleInRange_congr (scale_register f s).1 hs
  | registerMouseButton f => exact scaleInRange_congr (scale_register f s).2.1 hs
  | registerMouseMotion f => exact scaleInRange_congr (scale_register f s).2.2 hs
  | resetTransformation => exact scaleInRange_resetTransformation s
  | getTransformation => exact hs
  | applyTransformation => exact hs

theorem scaleUniform_opApply (s : State) (op : Op) (hs : ScaleUniform s) :
    ScaleUniform (Op.apply s op) := by
  cases op with
  | event ev => exact scaleUniform_step s ev hs
  | setOffset o => exact hs
  | getOffset b => exact hs
  | registerDoubleClick f => exact scaleUniform_congr (scale_register f s).1 hs
  | registerMouseButton f => exact scaleUniform_congr (scale_register f s).2.1 hs
  | registerMouseMotion f => exact scaleUniform_congr (scale_register f s).2.2 hs
  | resetTransformation => exact scaleUniform_resetTransformation s
  | getTransformation => exact hs
  | applyTransformation => exact hs

theorem scale_of_reachable (s : State) (h : Reachable s) : ScaleInRange s ∧ ScaleUniform s := by
  obtain ⟨ops, rfl⟩ := h
  have key : ∀ (ops : List Op) (t : State), ScaleInRange t ∧ ScaleUniform t →
      ScaleInRange (ops.foldl Op.apply t) ∧ ScaleUniform (ops.foldl Op.apply t) := by
    intro ops
    induction ops with
    | nil => exact fun t ht => ht
    | cons op ops ih =>
        exact fun t ht => ih _ ⟨scaleInRange_opApply t op ht.1, scaleUniform_opApply t op ht.2⟩
  exact key ops init ⟨scaleInRange_init, ⟨rfl, rfl⟩⟩

theorem rotateTrackball_zero (w : Int) (r : Float4) : rotateTrackball w 0 0 r = r := by
  unfold rotateTrackball
  rw [if_pos]
  rw [abs_of_nonneg (dragDist_nonneg 0 0)]
  exact (dragDist_lt_iff 0 0).mpr ⟨rfl, rfl⟩

/-- Claim C14.  In every state reachable from the initial state in which the button-down flag is
false, a motion event at any `(x, y)`, under any modifier value (hence any resulting mode) and any
viewport width, leaves translation, rotation (axis and angle), scale and offset unchanged. -/
theorem C14_idle_motion_is_noop (env : Env) (x y : Int) (s : State) (hr : Reachable s)
    (hp : s._MouseButtonPressed = false) :
    (glutMouseMotionCB env x y s)._Translation = s._Translation ∧
    (glutMouseMotionCB env x y s)._Rotation = s._Rotation ∧
    (glutMouseMotionCB env x y s)._Scale = s._Scale ∧
    (glutMouseMotionCB env x y s)._Offset = s._Offset := by
  obtain ⟨⟨⟨h0, h0'⟩, -, -⟩, hu1, hu2⟩ := scale_of_reachable s hr
  have hsc : (⟨s._Scale.e2 + 0, s._Scale.e2 + 0, s._Scale.e2 + 0⟩ : Float3) = s._Scale := by
    ext <;> simp [hu1, hu2]
  unfold glutMouseMotionCB
  simp only [hp, Bool.false_eq_true, if_false, glutPostRedisplay, Int.cast_zero, zero_div,
    rotateTrackball_zero, scaleAdd, scaleSet, evalMode, hsc, add_zero, sub_zero]
  split
  · exact ⟨rfl, rfl, rfl, rfl⟩
  · have e2 : s._Scale.e0 = s._Scale.e2 := hu1.trans hu2
    rw [e2] at h0 h0'
    rw [if_neg (not_lt.mpr h0), if_neg (not_lt.mpr h0')]
    refine ⟨rfl, rfl, ?_, rfl⟩
    ext <;> simp [hu1, hu2]
  · exact ⟨rfl, rfl, rfl, rfl⟩
  · exact ⟨rfl, rfl, rfl, rfl⟩
  · exact ⟨rfl, rfl, rfl, rfl⟩

/-- Witness for C14: the initial state, no button down, pointer moved to `(3,4)` with Alt held. -/
theorem C14_idle_motion_is_noop_witness :
    Reachable init ∧ init._MouseButtonPressed = false ∧
    (glutMouseMotionCB ⟨GLUT_ACTIVE_ALT, 640, 0⟩ 3 4 init)._Scale = init._Scale :=
  ⟨⟨[], rfl⟩, rfl,
   (C14_idle_motion_is_noop ⟨GLUT_ACTIVE_ALT, 640, 0⟩ 3 4 init ⟨[], rfl⟩ rfl).2.2.1⟩

/-! ## Callback registration -/

theorem slots_foldl (regs : List Registration) (s : State) :
    (regs.foldl Registration.apply s)._AppDoubleClickFunctionCB =
      (match lastNonNull (regs.filterMap Registration.doubleClickArg) with
       | some f => some f
       | none => s._AppDoubleClickFunctionCB) ∧
    (regs.foldl Registration.apply s)._AppMouseButtonFunctionCB =
      (match lastNonNull (regs.filterMap Registration.mouseButtonArg) with
       | some f => some f
       | none => s._AppMouseButtonFunctionCB) ∧
    (regs.foldl Registration.apply s)._AppMouseMotionFunctionCB =
      (match lastNonNull (regs.filterMap Registration.mouseMotionArg) with
       | some f => some f
       | none => s._AppMouseMotionFunctionCB) := by
  induction regs generalizing s with
  | nil => exact ⟨rfl, rfl, rfl⟩
  | cons r regs ih =>
    obtain ⟨h1, h2, h3⟩ := ih (Registration.apply s r)
    simp only [List.foldl_cons, h1, h2, h3]
    cases r with
    | doubleClick f =>
      cases f <;>
        simp [Registration.apply, registerDoubleClick, Registration.doubleClickArg,
          Registration.mouseButtonArg, Registration.mouseMotionArg, lastNonNull] <;>
        split <;> simp_all
    | mouseButton f =>
      cases f <;>
        simp [Registration.apply, registerMouseButton, Registration.doubleClickArg,
          Registration.mouseButtonArg, Registration.mouseMotionArg, lastNonNull] <;>
        split <;> simp_all
    | mouseMotion f =>
      cases f <;>
        simp [Registration.apply, registerMouseMotion, Registration.doubleClickArg,
          Registration.mouseButtonArg, Registration.mouseMotionArg, lastNonNull] <;>
        split <;> simp_all


theorem calls_motionScale (d : ℝ) (s : State) :
    (if (scaleAdd d s)._Scale.e0 < 0.025 then scaleSet 0.025 (scaleAdd d s)
     else if (scaleAdd d s)._Scale.e0 > 5.0 then scaleSet 5.0 (scaleAdd d s)
     else scaleAdd d s).calls = s.calls := by
  split_ifs <;> rfl

theorem calls_clamp (s : State) :
    (clampUp s).calls = s.calls ∧ (clampDown s).calls = s.calls := by
  unfold clampUp clampDown
  constructor <;> split <;> rfl

theorem calls_invoke (slot : Option Nat) (c : Nat → Call) (s : State) :
    (invoke slot c s).calls = s.calls ++ (match slot with | some f => [c f] | none => []) := by
  cases slot <;> simp [invoke]

theorem calls_glutMouseMotionCB (env : Env) (x y : Int) (s : State) :
    (glutMouseMotionCB env x y s).calls =
      if s._MouseButtonPressed then
        (invoke s._AppMouseMotionFunctionCB
          (fun f => Call.mouseMotion f s._OldMouseX s._OldMouseY x y) s).calls
      else s.calls := by
  unfold glutMouseMotionCB
  cases hp : s._MouseButtonPressed
  · simp only [Bool.false_eq_true, if_false, glutPostRedisplay]
    split
    · rfl
    · exact calls_motionScale _ _
    · rfl
    · rfl
    · rfl
  · simp only [if_true, glutPostRedisplay]
    split
    · rfl
    · exact calls_motionScale _ _
    · rfl
    · rfl
    · rfl

theorem calls_glutSpecialFuncCB (env : Env) (key x y : Int) (s : State) :
    (glutSpecialFuncCB env key x y s).calls = s.calls := by
  unfold glutSpecialFuncCB
  split
  · rfl
  · simp only []
    split
    · split_ifs <;> rfl
    · split_ifs <;> rfl
    · split_ifs <;> rfl
    · split_ifs
      · exact (calls_clamp _).1
      · exact (calls_clamp _).2
      · rfl
    · rfl

theorem calls_glutMouseButtonCB (env : Env) (b st x y : Int) (s : State) :
    (glutMouseButtonCB env b st x y s).calls =
      if st ≠ GLUT_UP ∧ (b = GLUT_LEFT_BUTTON ∨ b = GLUT_MIDDLE_BUTTON ∨ b = GLUT_RIGHT_BUTTON)
      then
        s.calls ++
          (match s._AppMouseButtonFunctionCB with
           | some f => [Call.mouseButton f x y x y]
           | none => []) ++
          (match s._AppDoubleClickFunctionCB with
           | some f => if env.clock - s.dblclick_start < 400 then [Call.doubleClick f x y] else []
           | none => [])
      else s.calls := by
  unfold glutMouseButtonCB
  by_cases hst : st = GLUT_UP
  · simp only [hst, if_true, ne_eq, not_true_eq_false, false_and, if_false, glutPostRedisplay]
    split <;> rfl
  · by_cases hb : b = GLUT_LEFT_BUTTON ∨ b = GLUT_MIDDLE_BUTTON ∨ b = GLUT_RIGHT_BUTTON
    · simp only [hst, if_false, hb, if_true, ne_eq, not_false_eq_true, and_self,
        glutPostRedisplay]
      cases hd : s._AppDoubleClickFunctionCB <;> cases hm : s._AppMouseButtonFunctionCB <;>
        by_cases hmid : b = GLUT_MIDDLE_BUTTON <;>
        by_cases ht : env.clock - s.dblclick_start < 400 <;>
        simp [hd, hm, hmid, ht, invoke, evalMode]
    · simp only [hst, if_false, hb, ne_eq, not_false_eq_true, and_false, glutPostRedisplay]
      split
      · exact (calls_clamp _).1
      · exact (calls_clamp _).2

theorem step_calls_empty_slot (s : State) (ev : Event) :
    (s._AppDoubleClickFunctionCB = none →
      (step s ev).calls.filter Call.isDoubleClick = s.calls.filter Call.isDoubleClick) ∧
    (s._AppMouseButtonFunctionCB = none →
      (step s ev).calls.filter Call.isMouseButton = s.calls.filter Call.isMouseButton) ∧
    (s._AppMouseMotionFunctionCB = none →
      (step s ev).calls.filter Call.isMouseMotion = s.calls.filter Call.isMouseMotion) := by
  cases ev with
  | button env b st x y =>
    simp only [step, calls_glutMouseButtonCB]
    refine ⟨?_, ?_, ?_⟩
    · intro h
      split
      · cases hm : s._AppMouseButtonFunctionCB <;>
          simp [h, hm, List.filter_append, Call.isDoubleClick]
      · rfl
    · intro h
      split
      · cases hd : s._AppDoubleClickFunctionCB
        · simp [h, hd, List.filter_append, Call.isMouseButton]
        · by_cases ht : env.clock - s.dblclick_start < 400 <;>
            simp [h, hd, ht, List.filter_append, Call.isMouseButton]
      · rfl
    · intro _
      split
      · cases hd : s._AppDoubleClickFunctionCB <;> cases hm : s._AppMouseButtonFunctionCB
        · simp [hd, hm, List.filter_append, Call.isMouseMotion]
        · simp [hd, hm, List.filter_append, Call.isMouseMotion]
        · by_cases ht : env.clock - s.dblclick_start < 400 <;>
            simp [hd, hm, ht, List.filter_append, Call.isMouseMotion]
        · by_cases ht : env.clock - s.dblclick_start < 400 <;>
            simp [hd, hm, ht, List.filter_append, Call.isMouseMotion]
      · rfl
  | motion env x y =>
    simp only [step, calls_glutMouseMotionCB, calls_invoke]
    refine ⟨?_, ?_, ?_⟩
    · intro _
      split
      · cases hm : s._AppMouseMotionFunctionCB <;>
          simp [List.filter_append, Call.isDoubleClick]
      · rfl
    · intro _
      split
      · cases hm : s._AppMouseMotionFunctionCB <;>
          simp [List.filter_append, Call.isMouseButton]
      · rfl
    · intro h
      split
      · simp [h]
      · rfl
  | special env k x y =>
    simp only [step, calls_glutSpecialFuncCB]
    exact ⟨fun _ => trivial, fun _ => trivial, fun _ => trivial⟩

/-- Claim C12, counterexample.  Register the function `7` for double clicks and then call
`registerDoubleClick` with the null default argument: the slot still holds `7`, not the argument
of the most recent call. -/
theorem C12_null_registration_keeps_slot :
    State._AppDoubleClickFunctionCB
      (registerAll [Registration.doubleClick (some 7), Registration.doubleClick none]) = some 7 ∧
    State._AppDoubleClickFunctionCB
      (registerAll [Registration.doubleClick (some 7), Registration.doubleClick none]) ≠ none := by
  constructor <;> simp [registerAll, Registration.apply, registerDoubleClick]

/-- Claim C12, amended.  For each of the three callback slots and every sequence of registration
calls on the initial state, the slot afterwards holds the argument of the most recent call for
that slot that passed a function (a call with the null argument leaves the slot as it is); a slot
for which no call was made is empty; and while a slot is empty the event handlers record no
invocation of that callback. -/
theorem C12_last_non_null_registration_wins (regs : List Registration) :
    ((registerAll regs)._AppDoubleClickFunctionCB =
        lastNonNull (regs.filterMap Registration.doubleClickArg) ∧
     (registerAll regs)._AppMouseButtonFunctionCB =
        lastNonNull (regs.filterMap Registration.mouseButtonArg) ∧
     (registerAll regs)._AppMouseMotionFunctionCB =
        lastNonNull (regs.filterMap Registration.mouseMotionArg)) ∧
    ((regs.filterMap Registration.doubleClickArg = [] →
        (registerAll regs)._AppDoubleClickFunctionCB = none) ∧
     (regs.filterMap Registration.mouseButtonArg = [] →
        (registerAll regs)._AppMouseButtonFunctionCB = none) ∧
     (regs.filterMap Registration.mouseMotionArg = [] →
        (registerAll regs)._AppMouseMotionFunctionCB = none)) ∧
    ∀ (s : State) (ev : Event),
      (s._AppDoubleClickFunctionCB = none →
        (step s ev).calls.filter Call.isDoubleClick = s.calls.filter Call.isDoubleClick) ∧
      (s._AppMouseButtonFunctionCB = none →
        (step s ev).calls.filter Call.isMouseButton = s.calls.filter Call.isMouseButton) ∧
      (s._AppMouseMotionFunctionCB = none →
        (step s ev).calls.filter Call.isMouseMotion = s.calls.filter Call.isMouseMotion) := by
  have key : (registerAll regs)._AppDoubleClickFunctionCB =
        lastNonNull (regs.filterMap Registration.doubleClickArg) ∧
     (registerAll regs)._AppMouseButtonFunctionCB =
        lastNonNull (regs.filterMap Registration.mouseButtonArg) ∧
     (registerAll regs)._AppMouseMotionFunctionCB =
        lastNonNull (regs.filterMap Registration.mouseMotionArg) := by
    obtain ⟨h1, h2, h3⟩ := slots_foldl regs init
    unfold registerAll
    rw [h1, h2, h3]
    refine ⟨?_, ?_, ?_⟩ <;> split <;> simp_all [init]
  refine ⟨key, ⟨?_, ?_, ?_⟩, step_calls_empty_slot⟩
  · intro h
    rw [key.1, h]
    rfl
  · intro h
    rw [key.2.1, h]
    rfl
  · intro h
    rw [key.2.2, h]
    rfl

/-! ## Held modifiers -/

theorem eval_motionScale (d : ℝ) (s : State) :
    (if (scaleAdd d s)._Scale.e0 < 0.025 then scaleSet 0.025 (scaleAdd d s)
     else if (scaleAdd d s)._Scale.e0 > 5.0 then scaleSet 5.0 (scaleAdd d s)
     else scaleAdd d s).eval = s.eval := by
  split_ifs <;> rfl

theorem eval_invoke (slot : Option Nat) (c : Nat → Call) (s : State) :
    (invoke slot c s).eval = s.eval := by
  cases slot <;> rfl

theorem eval_glutMouseMotionCB (env : Env) (x y : Int) (s : State) :
    (glutMouseMotionCB env x y s).eval =
      (evaluateTrackballMode env.modifiers TM_INVALID s.eval).2 := by
  unfold glutMouseMotionCB
  cases hp : s._MouseButtonPressed
  · simp only [Bool.false_eq_true, if_false, glutPostRedisplay]
    split
    · rfl
    · exact eval_motionScale _ _
    · rfl
    · rfl
    · rfl
  · simp only [if_true, glutPostRedisplay]
    split
    · simp only [evalMode, eval_invoke]
    · rw [eval_motionScale]
      simp only [evalMode, eval_invoke]
    · simp only [evalMode, eval_invoke]
    · simp only [evalMode, eval_invoke]
    · simp only [evalMode, eval_invoke]

theorem evaluate_steady (e : EvalStatics) :
    evaluateTrackballMode e.key_modifier_prev TM_INVALID e =
      (heldMode e.key_modifier_prev e.mode,
       ⟨heldMode e.key_modifier_prev e.mode, e.key_modifier_prev⟩) := by
  simp only [evaluateTrackballMode, ne_eq, not_true_eq_false, if_false, heldMode]
  have hd : ((0 : Int) = GLUT_DOWN) := rfl
  simp only [hd, if_true]

/-- Claim C18, counterexample.  With Ctrl held and unchanged (modifier value equal to the
snapshot) and current mode `TM_TRANSLATEZ`, the keyboard path returns `TM_TRANSLATEXY`; in a run:
a motion event with Ctrl held, a middle-button press (mode forced to `TM_TRANSLATEZ`), and the
next motion event with Ctrl still held ends in `TM_TRANSLATEXY`. -/
theorem C18_held_ctrl_replaces_forced_mode :
    (evaluateTrackballMode GLUT_ACTIVE_CTRL TM_INVALID ⟨TM_TRANSLATEZ, GLUT_ACTIVE_CTRL⟩).1
      = TM_TRANSLATEXY ∧
    (glutMouseButtonCB ⟨GLUT_ACTIVE_CTRL, 640, 0⟩ GLUT_MIDDLE_BUTTON GLUT_DOWN 0 0
      (glutMouseMotionCB ⟨GLUT_ACTIVE_CTRL, 640, 0⟩ 0 0 init)).eval =
      ⟨TM_TRANSLATEZ, GLUT_ACTIVE_CTRL⟩ ∧
    (glutMouseMotionCB ⟨GLUT_ACTIVE_CTRL, 640, 0⟩ 1 1
      (glutMouseButtonCB ⟨GLUT_ACTIVE_CTRL, 640, 0⟩ GLUT_MIDDLE_BUTTON GLUT_DOWN 0 0
        (glutMouseMotionCB ⟨GLUT_ACTIVE_CTRL, 640, 0⟩ 0 0 init))).eval.mode = TM_TRANSLATEXY := by
  have h1 : (glutMouseButtonCB ⟨GLUT_ACTIVE_CTRL, 640, 0⟩ GLUT_MIDDLE_BUTTON GLUT_DOWN 0 0
      (glutMouseMotionCB ⟨GLUT_ACTIVE_CTRL, 640, 0⟩ 0 0 init)).eval =
      ⟨TM_TRANSLATEZ, GLUT_ACTIVE_CTRL⟩ := by
    have hdown : GLUT_DOWN ≠ GLUT_UP := by decide
    unfold glutMouseButtonCB
    simp only [hdown, if_false, or_true, true_or, if_true, glutPostRedisplay, evalMode,
      eval_invoke]
    split <;> simp only [eval_invoke, eval_glutMouseMotionCB] <;> decide
  refine ⟨by decide, h1, ?_⟩
  rw [eval_glutMouseMotionCB, h1]
  decide

/-- Claim C18, amended.  On the keyboard path, when the modifier value equals the previous-modifier
snapshot `k`: for `k` Shift, Ctrl or Alt the returned and stored mode is the mode of `k`
(`heldMode`), whatever the current mode is; for every other `k` ('none' or an unrecognised value)
the current mode is returned and the statics are unchanged; the snapshot stays `k`.  So a
`TM_TRANSLATEZ` mode forced by a middle-button press survives a motion event with unchanged
keyboard state unless Ctrl or Alt is held, which select their own mode. -/
theorem C18_steady_modifier_reselects_mode (e : EvalStatics) :
    evaluateTrackballMode e.key_modifier_prev TM_INVALID e =
      (heldMode e.key_modifier_prev e.mode,
       ⟨heldMode e.key_modifier_prev e.mode, e.key_modifier_prev⟩) ∧
    (e.key_modifier_prev ≠ GLUT_ACTIVE_SHIFT → e.key_modifier_prev ≠ GLUT_ACTIVE_CTRL →
      e.key_modifier_prev ≠ GLUT_ACTIVE_ALT →
      evaluateTrackballMode e.key_modifier_prev TM_INVALID e = (e.mode, e)) ∧
    ∀ (env : Env) (x y : Int) (s : State), env.modifiers = s.eval.key_modifier_prev →
      s.eval.mode = TM_TRANSLATEZ →
      (glutMouseMotionCB env x y s).eval =
        ⟨(if env.modifiers = GLUT_ACTIVE_CTRL then TM_TRANSLATEXY
          else if env.modifiers = GLUT_ACTIVE_ALT then TM_SCALE else TM_TRANSLATEZ),
         env.modifiers⟩ := by
  refine ⟨evaluate_steady e, ?_, ?_⟩
  · intro h1 h2 h3
    rw [evaluate_steady]
    simp only [heldMode, h1, h2, h3, if_false]
  · intro env x y s hm hz
    rw [eval_glutMouseMotionCB, hm, evaluate_steady, hz]
    simp only [heldMode]
    split_ifs <;>
      first
      | rfl
      | (exfalso
         simp only [GLUT_ACTIVE_SHIFT, GLUT_ACTIVE_CTRL, GLUT_ACTIVE_ALT] at *
         omega)

/-! ## Default mode without modifier -/

/-- Claim C16, the code at the failing input.  Keyboard-path queries from the initial state with
the modifier values Shift, Shift+Ctrl, none, none return `TM_TRANSLATEZ` four times: after the
combination is released the queries without modifier do not return `TM_ROTATE`. -/
theorem C16_combination_leaves_mode_stuck :
    queryModes init.eval [GLUT_ACTIVE_SHIFT, GLUT_ACTIVE_SHIFT + GLUT_ACTIVE_CTRL, 0, 0] =
      [TM_TRANSLATEZ, TM_TRANSLATEZ, TM_TRANSLATEZ, TM_TRANSLATEZ] ∧
    (evaluateTrackballMode 0 TM_INVALID
      (evalAfter init.eval [GLUT_ACTIVE_SHIFT, GLUT_ACTIVE_SHIFT + GLUT_ACTIVE_CTRL])).1 =
      TM_TRANSLATEZ := by
  constructor <;> decide

theorem single_modifier_step (m : Int) (e : EvalStatics) (hm : SingleModifier m)
    (he : e = ⟨TM_ROTATE, 0⟩ ∨ e = ⟨TM_TRANSLATEZ, GLUT_ACTIVE_SHIFT⟩ ∨
      e = ⟨TM_TRANSLATEXY, GLUT_ACTIVE_CTRL⟩ ∨ e = ⟨TM_SCALE, GLUT_ACTIVE_ALT⟩) :
    ((evaluateTrackballMode m TM_INVALID e).2 = ⟨TM_ROTATE, 0⟩ ∨
     (evaluateTrackballMode m TM_INVALID e).2 = ⟨TM_TRANSLATEZ, GLUT_ACTIVE_SHIFT⟩ ∨
     (evaluateTrackballMode m TM_INVALID e).2 = ⟨TM_TRANSLATEXY, GLUT_ACTIVE_CTRL⟩ ∨
     (evaluateTrackballMode m TM_INVALID e).2 = ⟨TM_SCALE, GLUT_ACTIVE_ALT⟩) ∧
    (m = 0 → (evaluateTrackballMode m TM_INVALID e).1 = TM_ROTATE) := by
  rcases hm with rfl | rfl | rfl | rfl <;> rcases he with rfl | rfl | rfl | rfl <;> decide

theorem single_modifiers_none_query_rotates (pre : List Int)
    (h : ∀ m ∈ pre, SingleModifier m) :
    (evaluateTrackballMode 0 TM_INVALID (evalAfter init.eval pre)).1 = TM_ROTATE := by
  have key : ∀ (l : List Int) (e : EvalStatics), (∀ m ∈ l, SingleModifier m) →
      (e = ⟨TM_ROTATE, 0⟩ ∨ e = ⟨TM_TRANSLATEZ, GLUT_ACTIVE_SHIFT⟩ ∨
        e = ⟨TM_TRANSLATEXY, GLUT_ACTIVE_CTRL⟩ ∨ e = ⟨TM_SCALE, GLUT_ACTIVE_ALT⟩) →
      (evalAfter e l = ⟨TM_ROTATE, 0⟩ ∨ evalAfter e l = ⟨TM_TRANSLATEZ, GLUT_ACTIVE_SHIFT⟩ ∨
        evalAfter e l = ⟨TM_TRANSLATEXY, GLUT_ACTIVE_CTRL⟩ ∨
        evalAfter e l = ⟨TM_SCALE, GLUT_ACTIVE_ALT⟩) := by
    intro l
    induction l with
    | nil => exact fun e _ he => he
    | cons m l ih =>
      intro e hl he
      exact ih _ (fun k hk => hl k (List.mem_cons_of_mem m hk))
        (single_modifier_step m e (hl m (List.mem_cons_self m l)) he).1
  exact (single_modifier_step 0 _ (Or.inl rfl) (key pre init.eval h (Or.inl rfl))).2 rfl

/-! ## Matrix to axis and angle -/

theorem sin_arccos_bounds (c : ℝ) :
    0 ≤ Real.sin (Real.arccos c) ∧ Real.sin (Real.arccos c) ≤ 1 :=
  ⟨Real.sin_nonneg_of_nonneg_of_le_pi (Real.arccos_nonneg c) (Real.arccos_le_pi c),
   Real.sin_le_one _⟩

theorem truncToInt_sin_arccos (c : ℝ) :
    truncToInt (Real.sin (Real.arccos c) / Real.pi) = 0 := by
  obtain ⟨h0, h1⟩ := sin_arccos_bounds c
  have hpi : (3 : ℝ) < Real.pi := Real.pi_gt_three
  have hq0 : 0 ≤ Real.sin (Real.arccos c) / Real.pi := div_nonneg h0 (by linarith)
  have hq1 : Real.sin (Real.arccos c) / Real.pi < 1 := by
    rw [div_lt_one (by linarith)]
    linarith
  unfold truncToInt
  rw [if_pos hq0]
  exact Int.floor_eq_zero_iff.mpr ⟨hq0, hq1⟩

theorem degenerate_iff (c : ℝ) :
    |Real.sin (Real.arccos c) / Real.pi -
        ((truncToInt (Real.sin (Real.arccos c) / Real.pi) : Int) : ℝ)| < 0.0000001 ↔
      Real.sin (Real.arccos c) < Real.pi * 0.0000001 := by
  obtain ⟨h0, -⟩ := sin_arccos_bounds c
  have hpi : (0 : ℝ) < Real.pi := Real.pi_pos
  rw [truncToInt_sin_arccos, Int.cast_zero, sub_zero, abs_of_nonneg (div_nonneg h0 hpi.le),
    div_lt_iff₀ hpi, mul_comm]

theorem orthoRows_axisAmountToMat (r : Float4) (h : UnitAxis r) :
    OrthoRows (axisAmountToMat r) := by
  have h2 := Real.cos_sq_add_sin_sq r.e3
  unfold UnitAxis at h
  dsimp only [OrthoRows, axisAmountToMat]
  refine ⟨?_, ?_, ?_, ?_, ?_, ?_⟩
  · linear_combination (r.e0^2*Real.cos r.e3^2 - 2*r.e0^2*Real.cos r.e3 + r.e0^2 + Real.sin r.e3^2) * h + (-r.e0^2 + 1) * h2
  · linear_combination (r.e0*r.e1*Real.cos r.e3^2 - 2*r.e0*r.e1*Real.cos r.e3 + r.e0*r.e1) * h + (-r.e0*r.e1) * h2
  · linear_combination (r.e0*r.e2*Real.cos r.e3^2 - 2*r.e0*r.e2*Real.cos r.e3 + r.e0*r.e2) * h + (-r.e0*r.e2) * h2
  · linear_combination (r.e1^2*Real.cos r.e3^2 - 2*r.e1^2*Real.cos r.e3 + r.e1^2 + Real.sin r.e3^2) * h + (-r.e1^2 + 1) * h2
  · linear_combination (r.e1*r.e2*Real.cos r.e3^2 - 2*r.e1*r.e2*Real.cos r.e3 + r.e1*r.e2) * h + (-r.e1*r.e2) * h2
  · linear_combination (r.e2^2*Real.cos r.e3^2 - 2*r.e2^2*Real.cos r.e3 + r.e2^2 - Real.cos r.e3^2 + 1) * h + (r.e0^2 + r.e1^2) * h2

theorem orthoCols_mul (a b : Float9) (ha : OrthoCols a) (hb : OrthoCols b) :
    OrthoCols (value_ptr ((make_mat3 a).mul (make_mat3 b))) := by
  dsimp only [OrthoCols] at ha hb
  dsimp only [OrthoCols, value_ptr, Mat3.mul, make_mat3]
  refine ⟨?_, ?_, ?_, ?_, ?_, ?_⟩
  · linear_combination
      (b.m0 * b.m0) * ha.1 +
      (b.m0 * b.m1 + b.m1 * b.m0) * ha.2.1 +
      (b.m0 * b.m2 + b.m2 * b.m0) * ha.2.2.1 +
      (b.m1 * b.m1) * ha.2.2.2.1 +
      (b.m1 * b.m2 + b.m2 * b.m1) * ha.2.2.2.2.1 +
      (b.m2 * b.m2) * ha.2.2.2.2.2 +
      hb.1
  · linear_combination
      (b.m0 * b.m3) * ha.1 +
      (b.m0 * b.m4 + b.m1 * b.m3) * ha.2.1 +
      (b.m0 * b.m5 + b.m2 * b.m3) * ha.2.2.1 +
      (b.m1 * b.m4) * ha.2.2.2.1 +
      (b.m1 * b.m5 + b.m2 * b.m4) * ha.2.2.2.2.1 +
      (b.m2 * b.m5) * ha.2.2.2.2.2 +
      hb.2.1
  · linear_combination
      (b.m0 * b.m6) * ha.1 +
      (b.m0 * b.m7 + b.m1 * b.m6) * ha.2.1 +
      (b.m0 * b.m8 + b.m2 * b.m6) * ha.2.2.1 +
      (b.m1 * b.m7) * ha.2.2.2.1 +
      (b.m1 * b.m8 + b.m2 * b.m7) * ha.2.2.2.2.1 +
      (b.m2 * b.m8) * ha.2.2.2.2.2 +
      hb.2.2.1
  · linear_combination
      (b.m3 * b.m3) * ha.1 +
      (b.m3 * b.m4 + b.m4 * b.m3) * ha.2.1 +
      (b.m3 * b.m5 + b.m5 * b.m3) * ha.2.2.1 +
      (b.m4 * b.m4) * ha.2.2.2.1 +
      (b.m4 * b.m5 + b.m5 * b.m4) * ha.2.2.2.2.1 +
      (b.m5 * b.m5) * ha.2.2.2.2.2 +
      hb.2.2.2.1
  · linear_combination
      (b.m3 * b.m6) * ha.1 +
      (b.m3 * b.m7 + b.m4 * b.m6) * ha.2.1 +
      (b.m3 * b.m8 + b.m5 * b.m6) * ha.2.2.1 +
      (b.m4 * b.m7) * ha.2.2.2.1 +
      (b.m4 * b.m8 + b.m5 * b.m7) * ha.2.2.2.2.1 +
      (b.m5 * b.m8) * ha.2.2.2.2.2 +
      hb.2.2.2.2.1
  · linear_combination
      (b.m6 * b.m6) * ha.1 +
      (b.m6 * b.m7 + b.m7 * b.m6) * ha.2.1 +
      (b.m6 * b.m8 + b.m8 * b.m6) * ha.2.2.1 +
      (b.m7 * b.m7) * ha.2.2.2.1 +
      (b.m7 * b.m8 + b.m8 * b.m7) * ha.2.2.2.2.1 +
      (b.m8 * b.m8) * ha.2.2.2.2.2 +
      hb.2.2.2.2.2

theorem orthoRows_mul (a b : Float9) (ha : OrthoRows a) (hb : OrthoRows b) :
    OrthoRows (value_ptr ((make_mat3 a).mul (make_mat3 b))) := by
  dsimp only [OrthoRows] at ha hb
  dsimp only [OrthoRows, value_ptr, Mat3.mul, make_mat3]
  refine ⟨?_, ?_, ?_, ?_, ?_, ?_⟩
  · linear_combination
      (a.m0 * a.m0) * hb.1 +
      (a.m0 * a.m3 + a.m3 * a.m0) * hb.2.1 +
      (a.m0 * a.m6 + a.m6 * a.m0) * hb.2.2.1 +
      (a.m3 * a.m3) * hb.2.2.2.1 +
      (a.m3 * a.m6 + a.m6 * a.m3) * hb.2.2.2.2.1 +
      (a.m6 * a.m6) * hb.2.2.2.2.2 +
      ha.1
  · linear_combination
      (a.m0 * a.m1) * hb.1 +
      (a.m0 * a.m4 + a.m3 * a.m1) * hb.2.1 +
      (a.m0 * a.m7 + a.m6 * a.m1) * hb.2.2.1 +
      (a.m3 * a.m4) * hb.2.2.2.1 +
      (a.m3 * a.m7 + a.m6 * a.m4) * hb.2.2.2.2.1 +
      (a.m6 * a.m7) * hb.2.2.2.2.2 +
      ha.2.1
  · linear_combination
      (a.m0 * a.m2) * hb.1 +
      (a.m0 * a.m5 + a.m3 * a.m2) * hb.2.1 +
      (a.m0 * a.m8 + a.m6 * a.m2) * hb.2.2.1 +
      (a.m3 * a.m5) * hb.2.2.2.1 +
      (a.m3 * a.m8 + a.m6 * a.m5) * hb.2.2.2.2.1 +
      (a.m6 * a.m8) * hb.2.2.2.2.2 +
      ha.2.2.1
  · linear_combination
      (a.m1 * a.m1) * hb.1 +
      (a.m1 * a.m4 + a.m4 * a.m1) * hb.2.1 +
      (a.m1 * a.m7 + a.m7 * a.m1) * hb.2.2.1 +
      (a.m4 * a.m4) * hb.2.2.2.1 +
      (a.m4 * a.m7 + a.m7 * a.m4) * hb.2.2.2.2.1 +
      (a.m7 * a.m7) * hb.2.2.2.2.2 +
      ha.2.2.2.1
  · linear_combination
      (a.m1 * a.m2) * hb.1 +
      (a.m1 * a.m5 + a.m4 * a.m2) * hb.2.1 +
      (a.m1 * a.m8 + a.m7 * a.m2) * hb.2.2.1 +
      (a.m4 * a.m5) * hb.2.2.2.1 +
      (a.m4 * a.m8 + a.m7 * a.m5) * hb.2.2.2.2.1 +
      (a.m7 * a.m8) * hb.2.2.2.2.2 +
      ha.2.2.2.2.1
  · linear_combination
      (a.m2 * a.m2) * hb.1 +
      (a.m2 * a.m5 + a.m5 * a.m2) * hb.2.1 +
      (a.m2 * a.m8 + a.m8 * a.m2) * hb.2.2.1 +
      (a.m5 * a.m5) * hb.2.2.2.1 +
      (a.m5 * a.m8 + a.m8 * a.m5) * hb.2.2.2.2.1 +
      (a.m8 * a.m8) * hb.2.2.2.2.2 +
      ha.2.2.2.2.2

theorem selfCofactor_mul (a b : Float9) (ha : SelfCofactor a) (hb : SelfCofactor b) :
    SelfCofactor (value_ptr ((make_mat3 a).mul (make_mat3 b))) := by
  dsimp only [SelfCofactor] at ha hb
  dsimp only [SelfCofactor, value_ptr, Mat3.mul, make_mat3]
  refine ⟨?_, ?_, ?_, ?_, ?_, ?_, ?_, ?_, ?_⟩
  · linear_combination
      (b.m4 * b.m8 - b.m7 * b.m5) * ha.1 +
      a.m0 * hb.1 +
      (-(b.m3 * b.m8 - b.m6 * b.m5)) * ha.2.1 +
      a.m3 * hb.2.2.2.1 +
      (b.m3 * b.m7 - b.m6 * b.m4) * ha.2.2.1 +
      a.m6 * hb.2.2.2.2.2.2.1
  · linear_combination
      (-(b.m1 * b.m8 - b.m7 * b.m2)) * ha.1 +
      a.m0 * hb.2.1 +
      (b.m0 * b.m8 - b.m6 * b.m2) * ha.2.1 +
      a.m3 * hb.2.2.2.2.1 +
      (-(b.m0 * b.m7 - b.m6 * b.m1)) * ha.2.2.1 +
      a.m6 * hb.2.2.2.2.2.2.2.1
  · linear_combination
      (b.m1 * b.m5 - b.m4 * b.m2) * ha.1 +
      a.m0 * hb.2.2.1 +
      (-(b.m0 * b.m5 - b.m3 * b.m2)) * ha.2.1 +
      a.m3 * hb.2.2.2.2.2.1 +
      (b.m0 * b.m4 - b.m3 * b.m1) * ha.2.2.1 +
      a.m6 * hb.2.2.2.2.2.2.2.2
  · linear_combination
      (b.m4 * b.m8 - b.m7 * b.m5) * ha.2.2.2.1 +
      a.m1 * hb.1 +
      (-(b.m3 * b.m8 - b.m6 * b.m5)) * ha.2.2.2.2.1 +
      a.m4 * hb.2.2.2.1 +
      (b.m3 * b.m7 - b.m6 * b.m4) * ha.2.2.2.2.2.1 +
      a.m7 * hb.2.2.2.2.2.2.1
  · linear_combination
      (-(b.m1 * b.m8 - b.m7 * b.m2)) * ha.2.2.2.1 +
      a.m1 * hb.2.1 +
      (b.m0 * b.m8 - b.m6 * b.m2) * ha.2.2.2.2.1 +
      a.m4 * hb.2.2.2.2.1 +
      (-(b.m0 * b.m7 - b.m6 * b.m1)) * ha.2.2.2.2.2.1 +
      a.m7 * hb.2.2.2.2.2.2.2.1
  · linear_combination
      (b.m1 * b.m5 - b.m4 * b.m2) * ha.2.2.2.1 +
      a.m1 * hb.2.2.1 +
      (-(b.m0 * b.m5 - b.m3 * b.m2)) * ha.2.2.2.2.1 +
      a.m4 * hb.2.2.2.2.2.1 +
      (b.m0 * b.m4 - b.m3 * b.m1) * ha.2.2.2.2.2.1 +
      a.m7 * hb.2.2.2.2.2.2.2.2
  · linear_combination
      (b.m4 * b.m8 - b.m7 * b.m5) * ha.2.2.2.2.2.2.1 +
      a.m2 * hb.1 +
      (-(b.m3 * b.m8 - b.m6 * b.m5)) * ha.2.2.2.2.2.2.2.1 +
      a.m5 * hb.2.2.2.1 +
      (b.m3 * b.m7 - b.m6 * b.m4) * ha.2.2.2.2.2.2.2.2 +
      a.m8 * hb.2.2.2.2.2.2.1
  · linear_combination
      (-(b.m1 * b.m8 - b.m7 * b.m2)) * ha.2.2.2.2.2.2.1 +
      a.m2 * hb.2.1 +
      (b.m0 * b.m8 - b.m6 * b.m2) * ha.2.2.2.2.2.2.2.1 +
      a.m5 * hb.2.2.2.2.1 +
      (-(b.m0 * b.m7 - b.m6 * b.m1)) * ha.2.2.2.2.2.2.2.2 +
      a.m8 * hb.2.2.2.2.2.2.2.1
  · linear_combination
      (b.m1 * b.m5 - b.m4 * b.m2) * ha.2.2.2.2.2.2.1 +
      a.m2 * hb.2.2.1 +
      (-(b.m0 * b.m5 - b.m3 * b.m2)) * ha.2.2.2.2.2.2.2.1 +
      a.m5 * hb.2.2.2.2.2.1 +
      (b.m0 * b.m4 - b.m3 * b.m1) * ha.2.2.2.2.2.2.2.2 +
      a.m8 * hb.2.2.2.2.2.2.2.2

theorem skew_products (m : Float9) (hc : OrthoCols m) (hr : OrthoRows m) (hf : SelfCofactor m) :
    ((m.m5 - m.m7) * (m.m5 - m.m7) =
        (1 + (m.m0 + m.m4 + m.m8)) * (1 + m.m0 - m.m4 - m.m8) ∧
     (m.m6 - m.m2) * (m.m6 - m.m2) =
        (1 + (m.m0 + m.m4 + m.m8)) * (1 - m.m0 + m.m4 - m.m8) ∧
     (m.m1 - m.m3) * (m.m1 - m.m3) =
        (1 + (m.m0 + m.m4 + m.m8)) * (1 - m.m0 - m.m4 + m.m8)) ∧
    ((m.m5 - m.m7) * (m.m6 - m.m2) = (1 + (m.m0 + m.m4 + m.m8)) * (m.m1 + m.m3) ∧
     (m.m5 - m.m7) * (m.m1 - m.m3) = (1 + (m.m0 + m.m4 + m.m8)) * (m.m2 + m.m6) ∧
     (m.m6 - m.m2) * (m.m1 - m.m3) = (1 + (m.m0 + m.m4 + m.m8)) * (m.m5 + m.m7)) := by
  obtain ⟨c00, c01, c02, c11, c12, c22⟩ := hc
  obtain ⟨r00, r01, r02, r11, r12, r22⟩ := hr
  obtain ⟨f0, f1, f2, f3, f4, f5, f6, f7, f8⟩ := hf
  refine ⟨⟨?_, ?_, ?_⟩, ⟨?_, ?_, ?_⟩⟩ <;>
    linarith [c00, c01, c02, c11, c12, c22, r00, r01, r02, r11, r12, r22,
      f0, f1, f2, f3, f4, f5, f6, f7, f8]


theorem rodrigues_entries (m : Float9) (s a0 a1 a2 : ℝ)
    (h : ((m.m5 - m.m7) * (m.m5 - m.m7) =
        (1 + (m.m0 + m.m4 + m.m8)) * (1 + m.m0 - m.m4 - m.m8) ∧
     (m.m6 - m.m2) * (m.m6 - m.m2) =
        (1 + (m.m0 + m.m4 + m.m8)) * (1 - m.m0 + m.m4 - m.m8) ∧
     (m.m1 - m.m3) * (m.m1 - m.m3) =
        (1 + (m.m0 + m.m4 + m.m8)) * (1 - m.m0 - m.m4 + m.m8)) ∧
    ((m.m5 - m.m7) * (m.m6 - m.m2) = (1 + (m.m0 + m.m4 + m.m8)) * (m.m1 + m.m3) ∧
     (m.m5 - m.m7) * (m.m1 - m.m3) = (1 + (m.m0 + m.m4 + m.m8)) * (m.m2 + m.m6) ∧
     (m.m6 - m.m2) * (m.m1 - m.m3) = (1 + (m.m0 + m.m4 + m.m8)) * (m.m5 + m.m7)))
    (hs2 : s ^ 2 = 1 - ((m.m0 + m.m4 + m.m8 - 1) / 2) ^ 2) (hs0 : s ≠ 0)
    (ha0 : a0 * (2 * s) = m.m5 - m.m7) (ha1 : a1 * (2 * s) = m.m6 - m.m2)
    (ha2 : a2 * (2 * s) = m.m1 - m.m3) :
    (1 - (m.m0 + m.m4 + m.m8 - 1) / 2) * a0 * a0 + (m.m0 + m.m4 + m.m8 - 1) / 2 = m.m0 ∧
    (1 - (m.m0 + m.m4 + m.m8 - 1) / 2) * a0 * a1 + s * a2 = m.m1 ∧
    (1 - (m.m0 + m.m4 + m.m8 - 1) / 2) * a0 * a2 - s * a1 = m.m2 ∧
    (1 - (m.m0 + m.m4 + m.m8 - 1) / 2) * a0 * a1 - s * a2 = m.m3 ∧
    (1 - (m.m0 + m.m4 + m.m8 - 1) / 2) * a1 * a1 + (m.m0 + m.m4 + m.m8 - 1) / 2 = m.m4 ∧
    (1 - (m.m0 + m.m4 + m.m8 - 1) / 2) * a1 * a2 + s * a0 = m.m5 ∧
    (1 - (m.m0 + m.m4 + m.m8 - 1) / 2) * a0 * a2 + s * a1 = m.m6 ∧
    (1 - (m.m0 + m.m4 + m.m8 - 1) / 2) * a1 * a2 - s * a0 = m.m7 ∧
    (1 - (m.m0 + m.m4 + m.m8 - 1) / 2) * a2 * a2 + (m.m0 + m.m4 + m.m8 - 1) / 2 = m.m8 := by
  have h4 : 4 * (1 + (m.m0 + m.m4 + m.m8 - 1) / 2) ≠ 0 := by
    intro h0
    apply hs0
    have : s ^ 2 = 0 := by
      rw [hs2]
      linear_combination ((1 - (m.m0 + m.m4 + m.m8 - 1) / 2) / 4) * h0
    exact pow_eq_zero_iff (two_ne_zero) |>.mp this
  refine ⟨?_, ?_, ?_, ?_, ?_, ?_, ?_, ?_, ?_⟩
  · apply mul_left_cancel₀ h4
    linear_combination (a0 * (2 * s) + (m.m5 - m.m7)) * ha0 + h.1.1 - 4 * a0 ^ 2 * hs2
  · apply mul_left_cancel₀ h4
    linear_combination (a1 * (2 * s)) * ha0 + (m.m5 - m.m7) * ha1 + h.2.1 -
      4 * a0 * a1 * hs2 + (2 * (1 + (m.m0 + m.m4 + m.m8 - 1) / 2)) * ha2
  · apply mul_left_cancel₀ h4
    linear_combination (a2 * (2 * s)) * ha0 + (m.m5 - m.m7) * ha2 + h.2.2.1 -
      4 * a0 * a2 * hs2 - (2 * (1 + (m.m0 + m.m4 + m.m8 - 1) / 2)) * ha1
  · apply mul_left_cancel₀ h4
    linear_combination (a1 * (2 * s)) * ha0 + (m.m5 - m.m7) * ha1 + h.2.1 -
      4 * a0 * a1 * hs2 - (2 * (1 + (m.m0 + m.m4 + m.m8 - 1) / 2)) * ha2
  · apply mul_left_cancel₀ h4
    linear_combination (a1 * (2 * s) + (m.m6 - m.m2)) * ha1 + h.1.2.1 - 4 * a1 ^ 2 * hs2
  · apply mul_left_cancel₀ h4
    linear_combination (a2 * (2 * s)) * ha1 + (m.m6 - m.m2) * ha2 + h.2.2.2 -
      4 * a1 * a2 * hs2 + (2 * (1 + (m.m0 + m.m4 + m.m8 - 1) / 2)) * ha0
  · apply mul_left_cancel₀ h4
    linear_combination (a2 * (2 * s)) * ha0 + (m.m5 - m.m7) * ha2 + h.2.2.1 -
      4 * a0 * a2 * hs2 + (2 * (1 + (m.m0 + m.m4 + m.m8 - 1) / 2)) * ha1
  · apply mul_left_cancel₀ h4
    linear_combination (a2 * (2 * s)) * ha1 + (m.m6 - m.m2) * ha2 + h.2.2.2 -
      4 * a1 * a2 * hs2 - (2 * (1 + (m.m0 + m.m4 + m.m8 - 1) / 2)) * ha0
  · apply mul_left_cancel₀ h4
    linear_combination (a2 * (2 * s) + (m.m1 - m.m3)) * ha2 + h.1.2.2 - 4 * a2 ^ 2 * hs2

theorem axisAmountToMat_matToAxisAmount (m : Float9) (hc : OrthoCols m) (hr : OrthoRows m)
    (hf : SelfCofactor m)
    (hs : Real.pi * 0.0000001 ≤ Real.sin (Real.arccos ((trace m - 1) / 2))) :
    axisAmountToMat (matToAxisAmount m) = m := by
  have h := skew_products m hc hr hf
  unfold trace at hs
  have hpi : (0 : ℝ) < Real.pi := Real.pi_pos
  have hc2 : 0 ≤ 1 - ((m.m0 + m.m4 + m.m8 - 1) / 2) ^ 2 := by
    nlinarith [mul_self_nonneg (m.m5 - m.m7), mul_self_nonneg (m.m6 - m.m2),
      mul_self_nonneg (m.m1 - m.m3), h.1.1, h.1.2.1, h.1.2.2]
  have hlo : -1 ≤ (m.m0 + m.m4 + m.m8 - 1) / 2 := by nlinarith
  have hhi : (m.m0 + m.m4 + m.m8 - 1) / 2 ≤ 1 := by nlinarith
  have hcos := Real.cos_arccos hlo hhi
  have hs2 : Real.sin (Real.arccos ((m.m0 + m.m4 + m.m8 - 1) / 2)) ^ 2 =
      1 - ((m.m0 + m.m4 + m.m8 - 1) / 2) ^ 2 := by
    rw [Real.sin_arccos, Real.sq_sqrt hc2]
  have hpos : 0 < Real.sin (Real.arccos ((m.m0 + m.m4 + m.m8 - 1) / 2)) := by
    have : 0 < Real.pi * 0.0000001 := by positivity
    linarith
  have hs0 : Real.sin (Real.arccos ((m.m0 + m.m4 + m.m8 - 1) / 2)) ≠ 0 := hpos.ne'
  have h2s : 2 * Real.sin (Real.arccos ((m.m0 + m.m4 + m.m8 - 1) / 2)) ≠ 0 :=
    mul_ne_zero two_ne_zero hs0
  have hnd := (degenerate_iff ((m.m0 + m.m4 + m.m8 - 1) / 2)).not.mpr (not_lt.mpr hs)
  have hE := rodrigues_entries m _ _ _ _ h hs2 hs0 (div_mul_cancel₀ (m.m5 - m.m7) h2s)
    (div_mul_cancel₀ (m.m6 - m.m2) h2s) (div_mul_cancel₀ (m.m1 - m.m3) h2s)
  unfold matToAxisAmount
  simp only [hnd, if_false]
  unfold axisAmountToMat
  simp only [hcos]
  obtain ⟨e0, e1, e2, e3, e4, e5, e6, e7, e8⟩ := hE
  ext
  · exact e0
  · exact e1
  · exact e2
  · exact e3
  · exact e4
  · exact e5
  · exact e6
  · exact e7
  · exact e8

theorem dragDist_not_small (dx dy : Int) (hd : ¬ (dx = 0 ∧ dy = 0)) :
    ¬ |dragDist dx dy| < 0.99 := by
  rw [abs_of_nonneg (dragDist_nonneg dx dy)]
  exact fun h => hd ((dragDist_lt_iff dx dy).mp h)

theorem rotateTrackball_eq_composed (w dx dy : Int) (r : Float4) (hr : UnitAxis r)
    (hd : ¬ (dx = 0 ∧ dy = 0)) : rotateTrackball w dx dy r = composedRotation w dx dy r := by
  have hsmall := dragDist_not_small dx dy hd
  have hl := (axisLength_eq_one_iff _).mpr (unitAxis_composedRotation w dx dy r hr hsmall)
  unfold rotateTrackball
  rw [if_neg hsmall]
  simp only [hl, div_one]

/-- Claim C20.  Over the reals, for an accumulated rotation `r` with unit axis, an integer delta
`(dx, dy) ≠ (0,0)` and a viewport width `w > 0`: let `M` be the product of the matrix of `r`
(left) and the matrix of the increment with axis `(dy, dx, 0)/dist` and angle `π dist / w`
(right), and `φ = arccos((trace M - 1)/2)`.  If `sin φ ≥ π * 1e-7`, then `rotateTrackball` stores
the angle `φ` and an axis such that the matrix of the stored rotation, as computed by
`axisAmountToMat`, is `M` again. -/
theorem C20_composition_is_faithful (w dx dy : Int) (r : Float4) (hr : UnitAxis r)
    (hd : ¬ (dx = 0 ∧ dy = 0)) (_hw : 0 < w)
    (hs : Real.pi * 0.0000001 ≤
      Real.sin (Real.arccos ((trace (value_ptr (multMat w dx dy r)) - 1) / 2))) :
    multMat w dx dy r =
      (make_mat3 (axisAmountToMat r)).mul
        (make_mat3 (axisAmountToMat
          ⟨(dy : ℝ) / dragDist dx dy, (dx : ℝ) / dragDist dx dy, 0,
           Real.pi * dragDist dx dy / (w : ℝ)⟩)) ∧
    (rotateTrackball w dx dy r).e3 =
      Real.arccos ((trace (value_ptr (multMat w dx dy r)) - 1) / 2) ∧
    axisAmountToMat (rotateTrackball w dx dy r) = value_ptr (multMat w dx dy r) := by
  have hn := unitAxis_newRot w dx dy (dragDist_not_small dx dy hd)
  have hc := orthoCols_mul _ _ (orthoCols_axisAmountToMat r hr)
    (orthoCols_axisAmountToMat _ hn)
  have hro := orthoRows_mul _ _ (orthoRows_axisAmountToMat r hr)
    (orthoRows_axisAmountToMat _ hn)
  have hf := selfCofactor_mul _ _ (selfCofactor_axisAmountToMat r hr)
    (selfCofactor_axisAmountToMat _ hn)
  rw [rotateTrackball_eq_composed w dx dy r hr hd]
  refine ⟨rfl, ?_, ?_⟩
  · unfold composedRotation matToAxisAmount trace
    simp only []
    split <;> rfl
  · exact axisAmountToMat_matToAxisAmount _ hc hro hf hs


theorem quarterTurn_trace : trace (value_ptr (multMat 2 1 0 init._Rotation)) = 1 := by
  have hdist : dragDist 1 0 = 1 := by simp [dragDist]
  have hang : Real.pi * 1 / ((2 : Int) : ℝ) = Real.pi / 2 := by norm_num
  simp [multMat, newRot, hdist, hang, axisAmountToMat, make_mat3, Mat3.mul, value_ptr, trace,
    init]

theorem quarterTurn_sin :
    Real.pi * 0.0000001 ≤
      Real.sin (Real.arccos ((trace (value_ptr (multMat 2 1 0 init._Rotation)) - 1) / 2)) := by
  rw [quarterTurn_trace]
  have h4 : Real.pi < 4 := Real.pi_lt_four
  norm_num
  linarith

/-- Witness for C20: from the initial rotation, a drag by one pixel to the right in a viewport of
width two, which is a quarter turn about the axis `(0,1,0)`. -/
theorem C20_composition_is_faithful_witness :
    UnitAxis init._Rotation ∧ ¬ ((1 : Int) = 0 ∧ (0 : Int) = 0) ∧ (0 : Int) < 2 ∧
    Real.pi * 0.0000001 ≤
      Real.sin (Real.arccos ((trace (value_ptr (multMat 2 1 0 init._Rotation)) - 1) / 2)) ∧
    axisAmountToMat (rotateTrackball 2 1 0 init._Rotation) =
      value_ptr (multMat 2 1 0 init._Rotation) :=
  ⟨by simp [init, UnitAxis], by decide, by decide, quarterTurn_sin,
   (C20_composition_is_faithful 2 1 0 init._Rotation (by simp [init, UnitAxis]) (by decide)
      (by decide) quarterTurn_sin).2.2⟩

/-! ## Axis-angle round trip and a single update from reset -/

theorem trace_axisAmountToMat (r : Float4) (hu : UnitAxis r) :
    (trace (axisAmountToMat r) - 1) / 2 = Real.cos r.e3 := by
  unfold UnitAxis at hu
  dsimp only [trace, axisAmountToMat]
  linear_combination ((1 - Real.cos r.e3) / 2) * hu

theorem matToAxisAmount_axisAmountToMat_angle (r : Float4) (hu : UnitAxis r)
    (h0 : 0 ≤ r.e3) (hpi : r.e3 ≤ Real.pi) :
    (matToAxisAmount (axisAmountToMat r)).e3 = r.e3 := by
  have ht := trace_axisAmountToMat r hu
  unfold trace at ht
  unfold matToAxisAmount
  simp only [ht, Real.arccos_cos h0 hpi]
  split <;> rfl

theorem matToAxisAmount_axisAmountToMat_regular (r : Float4) (hu : UnitAxis r)
    (h0 : 0 ≤ r.e3) (hpi : r.e3 ≤ Real.pi) (hs : Real.pi * 0.0000001 ≤ Real.sin r.e3) :
    matToAxisAmount (axisAmountToMat r) = r := by
  have ht := trace_axisAmountToMat r hu
  have hd := degenerate_iff (Real.cos r.e3)
  rw [Real.arccos_cos h0 hpi] at hd
  have hpos : 0 < Real.sin r.e3 := by
    have : 0 < Real.pi * 0.0000001 := by positivity
    linarith
  have hne : Real.sin r.e3 ≠ 0 := hpos.ne'
  unfold trace at ht
  unfold matToAxisAmount
  simp only [ht, Real.arccos_cos h0 hpi, hd.not.mpr (not_lt.mpr hs), if_false]
  dsimp only [axisAmountToMat]
  ext
  · dsimp only
    field_simp
    ring
  · dsimp only
    field_simp
    ring
  · dsimp only
    field_simp
    ring
  · rfl

theorem axisAmountToMat_reset :
    axisAmountToMat ⟨0, 0, 1, 0⟩ = ⟨1, 0, 0, 0, 1, 0, 0, 0, 1⟩ := by
  simp [axisAmountToMat]

/-- Claim C23.  Over the reals, for every unit axis and every angle `θ` in `[0, π]` with
`sin θ ≥ π * 1e-7`, `matToAxisAmount` applied to the matrix written by `axisAmountToMat` returns
exactly the axis and the angle it started from; and `axisAmountToMat` of the reset rotation
(axis `(0,0,1)`, angle `0`) is the 3x3 identity matrix. -/
theorem C23_axis_angle_round_trip (r : Float4) (hu : UnitAxis r) (h0 : 0 ≤ r.e3)
    (hpi : r.e3 ≤ Real.pi) (hs : Real.pi * 0.0000001 ≤ Real.sin r.e3) :
    matToAxisAmount (axisAmountToMat r) = r ∧
    axisAmountToMat ⟨0, 0, 1, 0⟩ = ⟨1, 0, 0, 0, 1, 0, 0, 0, 1⟩ :=
  ⟨matToAxisAmount_axisAmountToMat_regular r hu h0 hpi hs, axisAmountToMat_reset⟩

theorem quarter_sin : Real.pi * 0.0000001 ≤ Real.sin (Real.pi / 2) := by
  have h4 : Real.pi < 4 := Real.pi_lt_four
  rw [Real.sin_pi_div_two]
  linarith

/-- Witness for C23: the quarter turn about the z axis. -/
theorem C23_axis_angle_round_trip_witness :
    UnitAxis ⟨0, 0, 1, Real.pi / 2⟩ ∧ (0 : ℝ) ≤ Real.pi / 2 ∧ Real.pi / 2 ≤ Real.pi ∧
    Real.pi * 0.0000001 ≤ Real.sin (Real.pi / 2) ∧
    matToAxisAmount (axisAmountToMat ⟨0, 0, 1, Real.pi / 2⟩) = ⟨0, 0, 1, Real.pi / 2⟩ :=
  have hp := Real.pi_pos
  ⟨by simp [UnitAxis], by linarith, by linarith, quarter_sin,
   (C23_axis_angle_round_trip ⟨0, 0, 1, Real.pi / 2⟩ (by simp [UnitAxis])
      (by show (0 : ℝ) ≤ Real.pi / 2; linarith) (by show Real.pi / 2 ≤ Real.pi; linarith)
      quarter_sin).1⟩


theorem altPressed_fields :
    altPressed._Scale = ⟨1, 1, 1⟩ ∧ altPressed._MouseButtonPressed = true ∧
    altPressed._OldMouseX = 0 ∧ altPressed._OldMouseY = 0 ∧
    altPressed.eval = ⟨TM_ROTATE, 0⟩ := by
  have hdown : GLUT_DOWN ≠ GLUT_UP := by decide
  have hmid : GLUT_LEFT_BUTTON ≠ GLUT_MIDDLE_BUTTON := by decide
  unfold altPressed glutMouseButtonCB
  simp only [hdown, if_false, true_or, if_true, hmid, glutPostRedisplay]
  simp [init, invoke]

/-- Claim C22, the code at the failing input.  After a left-button press at `(0,0)` on the initial
state (scale `1`), with Alt held (mode `TM_SCALE`): the key Up raises the scale to `1.05` while a
move of the pointer upwards to `(0,-10)` lowers it to `0.75`; the key Down lowers the scale to
`0.95` while a move downwards to `(0,10)` raises it to `1.25`. -/
theorem C22_scale_key_and_drag_disagree :
    altPressed._Scale = ⟨1, 1, 1⟩ ∧
    ((glutSpecialFuncCB ⟨GLUT_ACTIVE_ALT, 640, 0⟩ GLUT_KEY_UP 0 0 altPressed)._Scale =
        ⟨1 + 0.05, 1 + 0.05, 1 + 0.05⟩ ∧
     (glutMouseMotionCB ⟨GLUT_ACTIVE_ALT, 640, 0⟩ 0 (-10) altPressed)._Scale =
        ⟨1 - 0.25, 1 - 0.25, 1 - 0.25⟩) ∧
    ((glutSpecialFuncCB ⟨GLUT_ACTIVE_ALT, 640, 0⟩ GLUT_KEY_DOWN 0 0 altPressed)._Scale =
        ⟨1 - 0.05, 1 - 0.05, 1 - 0.05⟩ ∧
     (glutMouseMotionCB ⟨GLUT_ACTIVE_ALT, 640, 0⟩ 0 10 altPressed)._Scale =
        ⟨1 + 0.25, 1 + 0.25, 1 + 0.25⟩) := by
  obtain ⟨hs, hp, hx, hy, he⟩ := altPressed_fields
  have hmode : (evaluateTrackballMode GLUT_ACTIVE_ALT TM_INVALID altPressed.eval).1 =
      TM_SCALE := by
    rw [he]
    decide
  have k1 : GLUT_KEY_UP ≠ GLUT_KEY_HOME := by decide
  have k2 : GLUT_KEY_DOWN ≠ GLUT_KEY_HOME := by decide
  have k3 : GLUT_KEY_DOWN ≠ GLUT_KEY_UP := by decide
  refine ⟨hs, ⟨?_, ?_⟩, ⟨?_, ?_⟩⟩
  · unfold glutSpecialFuncCB
    simp only [k1, if_false, evalMode, hmode, if_true, glutPostRedisplay, clampUp, scaleAdd,
      scaleSet, hs]
    norm_num
  · unfold glutMouseMotionCB
    simp only [hp, if_true, evalMode, eval_invoke, hmode, glutPostRedisplay, scaleAdd,
      scaleSet, scale_invoke, hs, hy]
    norm_num
  · unfold glutSpecialFuncCB
    simp only [k2, k3, if_false, evalMode, hmode, if_true, glutPostRedisplay, clampDown,
      scaleAdd, scaleSet, hs]
    norm_num
  · unfold glutMouseMotionCB
    simp only [hp, if_true, evalMode, eval_invoke, hmode, glutPostRedisplay, scaleAdd,
      scaleSet, scale_invoke, hs, hy]
    norm_num


theorem arrowDelta_cases (key dx dy : Int) (hk : arrowDelta key = some (dx, dy)) :
    (key = GLUT_KEY_UP ∧ dx = 0 ∧ dy = -10) ∨ (key = GLUT_KEY_DOWN ∧ dx = 0 ∧ dy = 10) ∨
    (key = GLUT_KEY_LEFT ∧ dx = -10 ∧ dy = 0) ∨ (key = GLUT_KEY_RIGHT ∧ dx = 10 ∧ dy = 0) := by
  unfold arrowDelta at hk
  split_ifs at hk with h1 h2 h3 h4 <;> simp only [Option.some.injEq, Prod.mk.injEq] at hk
  · exact Or.inl ⟨h1, hk.1.symm, hk.2.symm⟩
  · exact Or.inr (Or.inl ⟨h2, hk.1.symm, hk.2.symm⟩)
  · exact Or.inr (Or.inr (Or.inl ⟨h3, hk.1.symm, hk.2.symm⟩))
  · exact Or.inr (Or.inr (Or.inr ⟨h4, hk.1.symm, hk.2.symm⟩))

theorem key_facts :
    GLUT_KEY_UP ≠ GLUT_KEY_HOME ∧ GLUT_KEY_DOWN ≠ GLUT_KEY_HOME ∧
    GLUT_KEY_LEFT ≠ GLUT_KEY_HOME ∧ GLUT_KEY_RIGHT ≠ GLUT_KEY_HOME ∧
    GLUT_KEY_DOWN ≠ GLUT_KEY_UP ∧ GLUT_KEY_LEFT ≠ GLUT_KEY_UP ∧ GLUT_KEY_RIGHT ≠ GLUT_KEY_UP ∧
    GLUT_KEY_LEFT ≠ GLUT_KEY_DOWN ∧ GLUT_KEY_RIGHT ≠ GLUT_KEY_DOWN ∧
    GLUT_KEY_RIGHT ≠ GLUT_KEY_LEFT := by
  decide

theorem special_arrow_rotate (env : Env) (key x y dx dy : Int) (s : State)
    (hk : arrowDelta key = some (dx, dy))
    (hm : (evaluateTrackballMode env.modifiers TM_INVALID s.eval).1 = TM_ROTATE) :
    (glutSpecialFuncCB env key x y s)._Rotation =
      rotateTrackball env.viewportWidth dx dy s._Rotation := by
  obtain ⟨k1, k2, k3, k4, k5, k6, k7, k8, k9, k10⟩ := key_facts
  unfold glutSpecialFuncCB
  rcases arrowDelta_cases key dx dy hk with ⟨rfl, rfl, rfl⟩ | ⟨rfl, rfl, rfl⟩ |
    ⟨rfl, rfl, rfl⟩ | ⟨rfl, rfl, rfl⟩ <;>
  simp only [k1, k2, k3, k4, k5, k6, k7, k8, k9, k10, if_false, if_true, evalMode, hm,
    glutPostRedisplay]

theorem special_arrow_translateXY (env : Env) (key x y dx dy : Int) (s : State)
    (hk : arrowDelta key = some (dx, dy))
    (hm : (evaluateTrackballMode env.modifiers TM_INVALID s.eval).1 = TM_TRANSLATEXY) :
    (glutSpecialFuncCB env key x y s)._Translation =
      ⟨s._Translation.e0 + (dx : ℝ) / 100, s._Translation.e1 - (dy : ℝ) / 100,
       s._Translation.e2⟩ := by
  obtain ⟨k1, k2, k3, k4, k5, k6, k7, k8, k9, k10⟩ := key_facts
  unfold glutSpecialFuncCB
  rcases arrowDelta_cases key dx dy hk with ⟨rfl, rfl, rfl⟩ | ⟨rfl, rfl, rfl⟩ |
    ⟨rfl, rfl, rfl⟩ | ⟨rfl, rfl, rfl⟩ <;>
  simp only [k1, k2, k3, k4, k5, k6, k7, k8, k9, k10, if_false, if_true, evalMode, hm,
    glutPostRedisplay] <;>
  ext <;> (norm_num; try ring)

theorem special_arrow_translateZ (env : Env) (key x y dy : Int) (s : State)
    (hk : arrowDelta key = some (0, dy))
    (hm : (evaluateTrackballMode env.modifiers TM_INVALID s.eval).1 = TM_TRANSLATEZ) :
    (glutSpecialFuncCB env key x y s)._Translation =
      ⟨s._Translation.e0, s._Translation.e1, s._Translation.e2 + (dy : ℝ) / 100⟩ := by
  obtain ⟨k1, k2, k3, k4, k5, k6, k7, k8, k9, k10⟩ := key_facts
  unfold glutSpecialFuncCB
  rcases arrowDelta_cases key 0 dy hk with ⟨rfl, -, rfl⟩ | ⟨rfl, -, rfl⟩ |
    ⟨rfl, h0, rfl⟩ | ⟨rfl, h0, rfl⟩
  · simp only [k1, if_false, if_true, evalMode, hm, glutPostRedisplay]
    ext <;> (norm_num; try ring)
  · simp only [k2, k5, if_false, if_true, evalMode, hm, glutPostRedisplay]
    ext <;> norm_num
  · exact absurd h0 (by decide)
  · exact absurd h0 (by decide)

theorem motion_drag (env : Env) (x y : Int) (s : State) (hp : s._MouseButtonPressed = true) :
    ((evaluateTrackballMode env.modifiers TM_INVALID s.eval).1 = TM_ROTATE →
      (glutMouseMotionCB env x y s)._Rotation =
        rotateTrackball env.viewportWidth (x - s._OldMouseX) (y - s._OldMouseY) s._Rotation) ∧
    ((evaluateTrackballMode env.modifiers TM_INVALID s.eval).1 = TM_TRANSLATEXY →
      (glutMouseMotionCB env x y s)._Translation =
        ⟨s._Translation.e0 + ((x - s._OldMouseX : Int) : ℝ) / 100,
         s._Translation.e1 - ((y - s._OldMouseY : Int) : ℝ) / 100, s._Translation.e2⟩) ∧
    ((evaluateTrackballMode env.modifiers TM_INVALID s.eval).1 = TM_TRANSLATEZ →
      (glutMouseMotionCB env x y s)._Translation =
        ⟨s._Translation.e0, s._Translation.e1,
         s._Translation.e2 + ((y - s._OldMouseY : Int) : ℝ) / 40⟩) := by
  refine ⟨?_, ?_, ?_⟩ <;> intro hm <;> unfold glutMouseMotionCB <;>
    simp only [hp, if_true, evalMode, invoke_frame, hm, glutPostRedisplay] <;> norm_num

theorem arrow_key_matches_drag (env : Env) (key x y dx dy : Int) (s : State)
    (hp : s._MouseButtonPressed = true) (hk : arrowDelta key = some (dx, dy)) :
    ((evaluateTrackballMode env.modifiers TM_INVALID s.eval).1 = TM_ROTATE →
      (glutSpecialFuncCB env key x y s)._Rotation =
        (glutMouseMotionCB env (s._OldMouseX + dx) (s._OldMouseY + dy) s)._Rotation) ∧
    ((evaluateTrackballMode env.modifiers TM_INVALID s.eval).1 = TM_TRANSLATEXY →
      (glutSpecialFuncCB env key x y s)._Translation =
        (glutMouseMotionCB env (s._OldMouseX + dx) (s._OldMouseY + dy) s)._Translation) ∧
    ((evaluateTrackballMode env.modifiers TM_INVALID s.eval).1 = TM_TRANSLATEZ → dx = 0 →
      0 < ((glutSpecialFuncCB env key x y s)._Translation.e2 - s._Translation.e2) *
        ((glutMouseMotionCB env (s._OldMouseX + dx) (s._OldMouseY + dy) s)._Translation.e2 -
          s._Translation.e2)) := by
  obtain ⟨m1, m2, m3⟩ := motion_drag env (s._OldMouseX + dx) (s._OldMouseY + dy) s hp
  have ex : s._OldMouseX + dx - s._OldMouseX = dx := by ring
  have ey : s._OldMouseY + dy - s._OldMouseY = dy := by ring
  rw [ex, ey] at m1 m2
  rw [ey] at m3
  refine ⟨?_, ?_, ?_⟩
  · intro hm
    rw [special_arrow_rotate env key x y dx dy s hk hm, m1 hm]
  · intro hm
    rw [special_arrow_translateXY env key x y dx dy s hk hm, m2 hm]
  · intro hm h0
    subst h0
    rw [special_arrow_translateZ env key x y dy s hk hm, m3 hm]
    rcases arrowDelta_cases key 0 dy hk with ⟨-, -, rfl⟩ | ⟨-, -, rfl⟩ |
      ⟨-, h0, -⟩ | ⟨-, h0, -⟩
    · norm_num
    · norm_num
    · exact absurd h0 (by decide)
    · exact absurd h0 (by decide)


theorem scale_key_opposes_drag (env : Env) (x y : Int) (s : State)
    (hp : s._MouseButtonPressed = true)
    (hm : (evaluateTrackballMode env.modifiers TM_INVALID s.eval).1 = TM_SCALE)
    (hlo : 0.025 < s._Scale.e2) (hhi : s._Scale.e2 < 5.0) :
    (s._Scale.e2 < (glutSpecialFuncCB env GLUT_KEY_UP x y s)._Scale.e0 ∧
      (y < s._OldMouseY → (glutMouseMotionCB env x y s)._Scale.e0 < s._Scale.e2)) ∧
    ((glutSpecialFuncCB env GLUT_KEY_DOWN x y s)._Scale.e0 < s._Scale.e2 ∧
      (s._OldMouseY < y → s._Scale.e2 < (glutMouseMotionCB env x y s)._Scale.e0)) := by
  obtain ⟨k1, k2, -, -, k5, -, -, -, -, -⟩ := key_facts
  have hmot : (glutMouseMotionCB env x y s)._Scale.e0 =
      if s._Scale.e2 + ((y - s._OldMouseY : Int) : ℝ) / 40 < 0.025 then 0.025
      else if s._Scale.e2 + ((y - s._OldMouseY : Int) : ℝ) / 40 > 5.0 then 5.0
      else s._Scale.e2 + ((y - s._OldMouseY : Int) : ℝ) / 40 := by
    unfold glutMouseMotionCB
    simp only [hp, if_true, evalMode, eval_invoke, hm, glutPostRedisplay, scaleAdd, scaleSet,
      scale_invoke]
    norm_num
    split_ifs <;> rfl
  have hup : (glutSpecialFuncCB env GLUT_KEY_UP x y s)._Scale.e0 =
      if s._Scale.e2 + 0.05 > 5.0 then 5.0 else s._Scale.e2 + 0.05 := by
    unfold glutSpecialFuncCB
    simp only [k1, if_false, evalMode, hm, if_true, glutPostRedisplay, clampUp, scaleAdd,
      scaleSet]
    split_ifs <;> rfl
  have hdn : (glutSpecialFuncCB env GLUT_KEY_DOWN x y s)._Scale.e0 =
      if s._Scale.e2 + -0.05 < 0.025 then 0.025 else s._Scale.e2 + -0.05 := by
    unfold glutSpecialFuncCB
    simp only [k2, k5, if_false, evalMode, hm, if_true, glutPostRedisplay, clampDown, scaleAdd,
      scaleSet]
    split_ifs <;> rfl
  rw [hmot, hup, hdn]
  refine ⟨⟨?_, ?_⟩, ⟨?_, ?_⟩⟩
  · split_ifs <;> linarith
  · intro hy
    have hd : ((y - s._OldMouseY : Int) : ℝ) < 0 := by exact_mod_cast sub_neg.mpr hy
    split_ifs <;> linarith
  · split_ifs <;> linarith
  · intro hy
    have hd : (0 : ℝ) < ((y - s._OldMouseY : Int) : ℝ) := by exact_mod_cast sub_pos.mpr hy
    split_ifs <;> linarith

/-! ## The argument of `acos` after rounding -/

end TrackBall
